import Mathlib

/-!
A shallow embedding of the client-side port of the lmstudio.js communication
protocol (`packages/lms-communication-client/src/ClientPort.ts`) together with
the pieces of its collaborators that the port's behaviour depends on
(`makeSetter.ts`, the immer patch engine, the frame vocabulary).

Modelling conventions:
* JSON-like runtime values are the inductive `Value`; arrays and objects are
  cons-encoded so that decidable equality can be derived.
* A zod schema is modelled as a function `Value → Option Value`: `none` is a
  failed parse, `some v` is a successful parse producing the (possibly
  transformed) data, exactly like `safeParse` / `parse` in the source.
* Every closure stored in an in-flight record of the TypeScript port
  (promise resolvers, channel sinks, signal listeners) is defunctionalised
  into an `Effect` carrying the record's numeric id; the sequence of effects
  a handler produces is returned next to the updated port state.
* The `LazySignal` current value read by the record's `getValue` closure is
  stored in the record itself (field `value`); `NOT_AVAILABLE` is the
  `Value.notAvail` sentinel.
-/

/-- JSON-like runtime values exchanged over the port. Arrays and objects are
cons-encoded (`arrNil`/`arrCons`, `objNil`/`objCons`) instead of nested lists
so that `DecidableEq` can be derived. `notAvail` is the `NOT_AVAILABLE`
sentinel of `LazySignal`. -/
inductive Value where
  | vnull : Value
  | vbool (b : Bool) : Value
  | vnum (n : Int) : Value
  | vstr (s : String) : Value
  | notAvail : Value
  | arrNil : Value
  | arrCons (hd : Value) (tl : Value) : Value
  | objNil : Value
  | objCons (key : String) (val : Value) (tl : Value) : Value
deriving DecidableEq, Repr

/-- One element of a patch path: an object key or an array index
(immer paths are `(string | number)[]`). -/
inductive PathKey where
  | str (s : String) : PathKey
  | idx (n : Nat) : PathKey
deriving DecidableEq, Repr

/-- The three immer patch operations. -/
inductive PatchOp where
  | replace : PatchOp
  | add : PatchOp
  | remove : PatchOp
deriving DecidableEq, Repr

/-- An immer patch `{op, path, value?}`. -/
structure Patch where
  op : PatchOp
  path : List PathKey
  value : Option Value
deriving DecidableEq, Repr

/-- A write tag (`WriteTag = number | string` in `makeSetter.ts`). -/
inductive WriteTag where
  | num (n : Int) : WriteTag
  | str (s : String) : WriteTag
deriving DecidableEq, Repr

/-- Object lookup along a cons-encoded object. -/
def objGet (v : Value) (k : String) : Option Value :=
  match v with
  | .objCons key val tl => if key = k then some val else objGet tl k
  | _ => none

/-- Object update: overwrite the key in place if present, else append
(the behaviour of `base[key] = value` on a JS object). -/
def objSet (v : Value) (k : String) (x : Value) : Value :=
  match v with
  | .objCons key val tl =>
    if key = k then .objCons key x tl else .objCons key val (objSet tl k x)
  | .objNil => .objCons k x .objNil
  | other => other

/-- Object key removal (`delete base[key]`). -/
def objDel (v : Value) (k : String) : Value :=
  match v with
  | .objCons key val tl => if key = k then tl else .objCons key val (objDel tl k)
  | other => other

/-- Array index lookup along a cons-encoded array. -/
def arrGet (v : Value) (n : Nat) : Option Value :=
  match v, n with
  | .arrCons hd _, 0 => some hd
  | .arrCons _ tl, n + 1 => arrGet tl n
  | _, _ => none

/-- Array index overwrite (`base[i] = value` within bounds). -/
def arrSet (v : Value) (n : Nat) (x : Value) : Value :=
  match v, n with
  | .arrCons _ tl, 0 => .arrCons x tl
  | .arrCons hd tl, n + 1 => .arrCons hd (arrSet tl n x)
  | other, _ => other

/-- Array insertion at an index (`base.splice(i, 0, value)`). -/
def arrIns (v : Value) (n : Nat) (x : Value) : Value :=
  match v, n with
  | .arrNil, 0 => .arrCons x .arrNil
  | .arrCons hd tl, 0 => .arrCons x (.arrCons hd tl)
  | .arrCons hd tl, n + 1 => .arrCons hd (arrIns tl n x)
  | other, _ => other

/-- Array removal at an index (`base.splice(i, 1)`). -/
def arrDel (v : Value) (n : Nat) : Value :=
  match v, n with
  | .arrCons _ tl, 0 => tl
  | .arrCons hd tl, n + 1 => .arrCons hd (arrDel tl n)
  | other, _ => other

/-- Navigate one path element into a value. -/
def childAt (v : Value) (k : PathKey) : Option Value :=
  match k with
  | .str s => objGet v s
  | .idx n => arrGet v n

/-- Replace the child at one path element. -/
def setChildAt (v : Value) (k : PathKey) (x : Value) : Value :=
  match k with
  | .str s => objSet v s x
  | .idx n => arrSet v n x

/-- Apply a leaf patch operation at a single path element of `base`,
mirroring the final `switch (op)` of immer's `applyPatches`: `replace` and
`add` assign into objects, `add` splices into arrays, `remove` deletes.
Out-of-range operations leave the value unchanged (immer throws there; no
claim depends on that branch). -/
def applyLeaf (base : Value) (k : PathKey) (op : PatchOp) (val : Option Value) : Value :=
  match op, k with
  | .replace, _ => setChildAt base k (val.getD .vnull)
  | .add, .str s => objSet base s (val.getD .vnull)
  | .add, .idx n => arrIns base n (val.getD .vnull)
  | .remove, .str s => objDel base s
  | .remove, .idx n => arrDel base n

/-- Apply a patch operation at a non-empty path, navigating to the parent of
the last path element as immer's `applyPatches` does. -/
def applyAt (base : Value) (path : List PathKey) (op : PatchOp) (val : Option Value) : Value :=
  match path with
  | [] => base
  | [k] => applyLeaf base k op val
  | k :: rest =>
    match childAt base k with
    | none => base
    | some child => setChildAt base k (applyAt child rest op val)

/-- Apply one immer patch. A root `replace` (empty path) replaces the whole
document, exactly immer's special case. -/
def applyOnePatch (base : Value) (p : Patch) : Value :=
  match p.path with
  | [] =>
    match p.op with
    | .replace => p.value.getD base
    | _ => base
  | _ => applyAt base p.path p.op p.value

/-- The patch engine: immer's `applyPatches`, applying patches in order. -/
def applyPatches (base : Value) (ps : List Patch) : Value :=
  ps.foldl applyOnePatch base

/-- Outbound (client → server) frames, the exact set of `transport.send`
payload shapes constructed in `ClientPort.ts`. -/
inductive Frame where
  | rpcCall (endpoint : String) (callId : Nat) (parameter : Value) : Frame
  | channelCreate (endpoint : String) (channelId : Nat) (creationParameter : Value) : Frame
  | channelSend (channelId : Nat) (message : Value) : Frame
  | signalSubscribe (endpoint : String) (subscribeId : Nat) (creationParameter : Value) : Frame
  | signalUnsubscribe (subscribeId : Nat) : Frame
  | writableSignalSubscribe (endpoint : String) (subscribeId : Nat) (creationParameter : Value) : Frame
  | writableSignalUnsubscribe (subscribeId : Nat) : Frame
  | writableSignalUpdate (subscribeId : Nat) (patches : List Patch) (tags : List WriteTag) : Frame
  | communicationWarning (warning : String) : Frame
  | keepAlive : Frame
deriving DecidableEq, Repr

/-- Inbound (server → client) frames (`ServerToClientMessage`). Serialized
errors are opaque to the port and are carried as a `Value`. -/
inductive Msg where
  | channelSend (channelId : Nat) (message : Value) : Msg
  | channelAck (channelId : Nat) (ackId : Nat) : Msg
  | channelClose (channelId : Nat) : Msg
  | channelError (channelId : Nat) (error : Value) : Msg
  | rpcResult (callId : Nat) (result : Value) : Msg
  | rpcError (callId : Nat) (error : Value) : Msg
  | signalUpdate (subscribeId : Nat) (patches : List Patch) (tags : List WriteTag) : Msg
  | signalError (subscribeId : Nat) (error : Value) : Msg
  | writableSignalUpdate (subscribeId : Nat) (patches : List Patch) (tags : List WriteTag) : Msg
  | writableSignalError (subscribeId : Nat) (error : Value) : Msg
  | communicationWarning (warning : String) : Msg
  | keepAliveAck : Msg
deriving DecidableEq, Repr

/-- Errors delivered into user callbacks. `fromTransport e` is the raw error
object forwarded by the transport's `onError`; `deserialized serialized stack`
stands for `errorDeserializer(serialized, stack)` — the user-supplied
deserializer applied to a serialized error and an optional attributed stack. -/
inductive PErr where
  | fromTransport (e : Value) : PErr
  | deserialized (serialized : Value) (stack : Option String) : PErr
deriving DecidableEq, Repr

/-- Observable effects of a port handler, in emission order. Each constructor
defunctionalises one closure invocation or collaborator call of the
TypeScript port. -/
inductive Effect where
  | sendFrame (f : Frame) : Effect
  | logWarn (s : String) : Effect
  | logError (s : String) : Effect
  | noOpenComm : Effect
  | oneOrMoreOpenComm : Effect
  | rpcResolve (callId : Nat) (result : Value) : Effect
  | rpcReject (callId : Nat) (e : PErr) : Effect
  | channelMessage (channelId : Nat) (message : Value) : Effect
  | channelAckEffect (channelId : Nat) (ackId : Nat) : Effect
  | channelClosed (channelId : Nat) : Effect
  | channelErrored (channelId : Nat) (e : PErr) : Effect
  | signalSetValue (subscribeId : Nat) (v : Value) (tags : List WriteTag) : Effect
  | signalErrored (subscribeId : Nat) (e : PErr) : Effect
  | wsignalSetValue (subscribeId : Nat) (v : Value) (tags : List WriteTag) : Effect
  | wsignalErrored (subscribeId : Nat) (e : PErr) : Effect
deriving DecidableEq, Repr

/-- A zod schema, modelled as `safeParse`: `none` on failure, `some data` on
success where `data` is the parsed (possibly transformed) output. -/
def Schema : Type := Value → Option Value

/-- An RPC endpoint descriptor of the backend interface. -/
structure RpcEndpoint where
  name : String
  parameter : Schema
  returns : Schema

/-- A channel endpoint descriptor of the backend interface. -/
structure ChannelEndpoint where
  name : String
  creationParameter : Schema
  toServerPacket : Schema
  toClientPacket : Schema

/-- A (read-only or writable) signal endpoint descriptor of the backend
interface. -/
structure SignalEndpoint where
  name : String
  creationParameter : Schema
  signalData : Schema

/-- Association-list lookup, first match (the tables are `Map`s keyed by
numeric ids, the registry by names). -/
def alGet {κ α : Type} [DecidableEq κ] (l : List (κ × α)) (k : κ) : Option α :=
  match l with
  | [] => none
  | (k', v) :: rest => if k' = k then some v else alGet rest k

/-- Association-list insertion/overwrite (`Map.set`): overwrite in place if
the key is present, append otherwise. -/
def alSet {κ α : Type} [DecidableEq κ] (l : List (κ × α)) (k : κ) (v : α) : List (κ × α) :=
  match l with
  | [] => [(k, v)]
  | (k', v') :: rest => if k' = k then (k, v) :: rest else (k', v') :: alSet rest k v

/-- Association-list deletion (`Map.delete`), removing the first match. -/
def alDel {κ α : Type} [DecidableEq κ] (l : List (κ × α)) (k : κ) : List (κ × α) :=
  match l with
  | [] => []
  | (k', v') :: rest => if k' = k then rest else (k', v') :: alDel rest k

/-- The keys of an association list. -/
def alKeys {κ α : Type} (l : List (κ × α)) : List κ := l.map Prod.fst

/-- The schema registry (`BackendInterface`): four name-keyed endpoint maps. -/
structure BackendInterface where
  rpcEndpoints : List (String × RpcEndpoint)
  channelEndpoints : List (String × ChannelEndpoint)
  signalEndpoints : List (String × SignalEndpoint)
  writableSignalEndpoints : List (String × SignalEndpoint)

/-- Registry lookup `getRpcEndpoint`. -/
def BackendInterface.getRpcEndpoint (b : BackendInterface) (n : String) : Option RpcEndpoint :=
  alGet b.rpcEndpoints n

/-- Registry lookup `getChannelEndpoint`. -/
def BackendInterface.getChannelEndpoint (b : BackendInterface) (n : String) : Option ChannelEndpoint :=
  alGet b.channelEndpoints n

/-- Registry lookup `getSignalEndpoint`. -/
def BackendInterface.getSignalEndpoint (b : BackendInterface) (n : String) : Option SignalEndpoint :=
  alGet b.signalEndpoints n

/-- Registry lookup `getWritableSignalEndpoint`. -/
def BackendInterface.getWritableSignalEndpoint (b : BackendInterface) (n : String) : Option SignalEndpoint :=
  alGet b.writableSignalEndpoints n

/-- In-flight record of an open channel (`OpenChannel`): the sinks
(`receivedAck`, `receivedMessage`, `errored`, `closed`) become effects keyed
by the channel id. -/
structure OpenChannel where
  endpoint : ChannelEndpoint
  stack : String

/-- In-flight record of an ongoing RPC (`OngoingRpc`): `resolve`/`reject`
become effects keyed by the call id. -/
structure OngoingRpc where
  endpoint : RpcEndpoint
  stack : String

/-- In-flight record of an open signal subscription
(`OpenSignalSubscription`). `value` is the current value of the backing
`LazySignal` read by the record's `getValue` closure (`() => signal.get()`);
`none` is the `NOT_AVAILABLE` sentinel. The `setValue` listener becomes the
`signalSetValue` effect plus an update of `value`. -/
structure OpenSignalSubscription where
  endpoint : SignalEndpoint
  value : Option Value
  stack : String

/-- In-flight record of an open writable signal subscription
(`OpenWritableSignalSubscription`), shaped like `OpenSignalSubscription`. -/
structure OpenWritableSignalSubscription where
  endpoint : SignalEndpoint
  value : Option Value
  stack : String

/-- The mutable state of a `ClientPort`: the readonly registry, the four
in-flight tables, the open-communications count, the three id counters, the
produced-warnings counter and the `verboseErrorMessage` flag. -/
structure PortState where
  backendInterface : BackendInterface
  openChannels : List (Nat × OpenChannel)
  ongoingRpcs : List (Nat × OngoingRpc)
  openSignalSubscriptions : List (Nat × OpenSignalSubscription)
  openWritableSignalSubscriptions : List (Nat × OpenWritableSignalSubscription)
  openCommunicationsCount : Nat
  nextChannelId : Nat
  nextSubscribeId : Nat
  nextWritableSubscribeId : Nat
  producedCommunicationWarningsCount : Nat
  verboseErrorMessage : Bool

/-- The sum of the four table sizes, the quantity `updateOpenCommunicationsCount`
recomputes. -/
def openCount (s : PortState) : Nat :=
  s.openChannels.length + s.ongoingRpcs.length +
    s.openSignalSubscriptions.length + s.openWritableSignalSubscriptions.length

/-- The local warning log line produced by `communicationWarning`. -/
def producedWarningText (warning : String) : String :=
  "Produced communication warning: " ++ warning

/-- The one-shot suppression log line printed after the 5th warning. -/
def suppressionText : String :=
  "5 communication warnings have been produced. Further warnings will not be printed."

/-- The log line produced for an inbound `communicationWarning` frame. -/
def receivedWarningText (warning : String) : String :=
  "Received communication warning from the server: " ++ warning

/-- The port's `communicationWarning(warning)` method: a no-op once five
warnings have been produced; otherwise log locally, send a
`communicationWarning` frame, bump the counter, and after the bump reaches
five print the one-shot suppression line. -/
def communicationWarning (s : PortState) (warning : String) : PortState × List Effect :=
  if 5 ≤ s.producedCommunicationWarningsCount then
    (s, [])
  else
    let effs := [Effect.logWarn (producedWarningText warning),
                 Effect.sendFrame (Frame.communicationWarning warning)]
    let s' := { s with
      producedCommunicationWarningsCount := s.producedCommunicationWarningsCount + 1 }
    if 5 ≤ s'.producedCommunicationWarningsCount then
      (s', effs ++ [Effect.logError suppressionText])
    else
      (s', effs)

/-- The port's `updateOpenCommunicationsCount`: recompute the count from the
table sizes and report the `0 → ≥1` and `≥1 → 0` edges to the transport. -/
def updateOpenCommunicationsCount (s : PortState) : PortState × List Effect :=
  let previousCount := s.openCommunicationsCount
  let newCount := openCount s
  let s' := { s with openCommunicationsCount := newCount }
  if newCount = 0 ∧ 0 < previousCount then
    (s', [Effect.noOpenComm])
  else if newCount = 1 ∧ previousCount = 0 then
    (s', [Effect.oneOrMoreOpenComm])
  else
    (s', [])

/-- The value produced by an open signal subscription's `getValue` closure
(`() => signal.get()`): the current value, or the `NOT_AVAILABLE` sentinel. -/
def OpenSignalSubscription.currentValue (r : OpenSignalSubscription) : Value :=
  match r.value with
  | some v => v
  | none => Value.notAvail

/-- The value produced by an open writable signal subscription's `getValue`
closure. -/
def OpenWritableSignalSubscription.currentValue (r : OpenWritableSignalSubscription) : Value :=
  match r.value with
  | some v => v
  | none => Value.notAvail

/-- Handler for an inbound `channelSend` frame (`receivedChannelSend`):
unknown channel id or invalid `toClientPacket` payload produce a
communication warning; otherwise the parsed message is delivered to the
channel's inbound sink. -/
def receivedChannelSend (s : PortState) (channelId : Nat) (message : Value) :
    PortState × List Effect :=
  match alGet s.openChannels channelId with
  | none =>
    communicationWarning s
      ("Received channelSend for unknown channel, channelId = " ++ toString channelId)
  | some openChannel =>
    match openChannel.endpoint.toClientPacket message with
    | none =>
      communicationWarning s
        ("Received invalid message for channel: endpointName = " ++ openChannel.endpoint.name)
    | some parsed => (s, [Effect.channelMessage channelId parsed])

/-- Handler for an inbound `channelAck` frame (`receivedChannelAck`). -/
def receivedChannelAck (s : PortState) (channelId : Nat) (ackId : Nat) :
    PortState × List Effect :=
  match alGet s.openChannels channelId with
  | none =>
    communicationWarning s
      ("Received channelAck for unknown channel, channelId = " ++ toString channelId)
  | some _ => (s, [Effect.channelAckEffect channelId ackId])

/-- Handler for an inbound `channelClose` frame (`receivedChannelClose`):
remove the record, fire the close sink, recompute the open count. -/
def receivedChannelClose (s : PortState) (channelId : Nat) : PortState × List Effect :=
  match alGet s.openChannels channelId with
  | none =>
    communicationWarning s
      ("Received channelClose for unknown channel, channelId = " ++ toString channelId)
  | some _ =>
    let s1 := { s with openChannels := alDel s.openChannels channelId }
    let u := updateOpenCommunicationsCount s1
    (u.1, Effect.channelClosed channelId :: u.2)

/-- Handler for an inbound `channelError` frame (`receivedChannelError`):
remove the record, deserialize the error (with the captured stack iff
`verboseErrorMessage`), fire the error sink, recompute the open count. -/
def receivedChannelError (s : PortState) (channelId : Nat) (error : Value) :
    PortState × List Effect :=
  match alGet s.openChannels channelId with
  | none =>
    communicationWarning s
      ("Received channelError for unknown channel, channelId = " ++ toString channelId)
  | some openChannel =>
    let s1 := { s with openChannels := alDel s.openChannels channelId }
    let e := PErr.deserialized error (if s.verboseErrorMessage then some openChannel.stack else none)
    let u := updateOpenCommunicationsCount s1
    (u.1, Effect.channelErrored channelId e :: u.2)

/-- Handler for an inbound `rpcResult` frame (`receivedRpcResult`): unknown
call id or a result failing the `returns` schema produce a communication
warning and leave the record in place; otherwise the future resolves with
the parsed result, the record is removed and the open count recomputed. -/
def receivedRpcResult (s : PortState) (callId : Nat) (result : Value) :
    PortState × List Effect :=
  match alGet s.ongoingRpcs callId with
  | none =>
    communicationWarning s ("Received rpcResult for unknown rpc, callId = " ++ toString callId)
  | some ongoingRpc =>
    match ongoingRpc.endpoint.returns result with
    | none =>
      communicationWarning s
        ("Received invalid result for rpc, endpointName = " ++ ongoingRpc.endpoint.name)
    | some parsed =>
      let s1 := { s with ongoingRpcs := alDel s.ongoingRpcs callId }
      let u := updateOpenCommunicationsCount s1
      (u.1, Effect.rpcResolve callId parsed :: u.2)

/-- Handler for an inbound `rpcError` frame (`receivedRpcError`): reject the
future with the deserialized error, remove the record, recompute the count. -/
def receivedRpcError (s : PortState) (callId : Nat) (error : Value) :
    PortState × List Effect :=
  match alGet s.ongoingRpcs callId with
  | none =>
    communicationWarning s ("Received rpcError for unknown rpc, callId = " ++ toString callId)
  | some ongoingRpc =>
    let e := PErr.deserialized error (if s.verboseErrorMessage then some ongoingRpc.stack else none)
    let s1 := { s with ongoingRpcs := alDel s.ongoingRpcs callId }
    let u := updateOpenCommunicationsCount s1
    (u.1, Effect.rpcReject callId e :: u.2)

/-- Handler for an inbound `signalUpdate` frame (`receivedSignalUpdate`):
unknown subscribe id warns; otherwise the patches are applied to the value
read through the record's getter, the outcome is validated against the
`signalData` schema; an invalid outcome warns without touching observers; a
valid one is delivered (the schema's parsed output) with the frame's tags. -/
def receivedSignalUpdate (s : PortState) (subscribeId : Nat) (patches : List Patch)
    (tags : List WriteTag) : PortState × List Effect :=
  match alGet s.openSignalSubscriptions subscribeId with
  | none =>
    communicationWarning s
      ("Received signalUpdate for unknown signal, subscribeId = " ++ toString subscribeId)
  | some sub =>
    let afterValue := applyPatches sub.currentValue patches
    match sub.endpoint.signalData afterValue with
    | none =>
      communicationWarning s
        ("Received invalid signal patch data, subscribeId = " ++ toString subscribeId)
    | some parsed =>
      let sub' : OpenSignalSubscription := { sub with value := some parsed }
      let s1 := { s with
        openSignalSubscriptions := alSet s.openSignalSubscriptions subscribeId sub' }
      (s1, [Effect.signalSetValue subscribeId parsed tags])

/-- Handler for an inbound `signalError` frame (`receivedSignalError`): fire
the subscription's error sink with the deserialized error, remove the
record, recompute the count. -/
def receivedSignalError (s : PortState) (subscribeId : Nat) (error : Value) :
    PortState × List Effect :=
  match alGet s.openSignalSubscriptions subscribeId with
  | none =>
    communicationWarning s
      ("Received signalError for unknown signal, subscribeId = " ++ toString subscribeId)
  | some sub =>
    let e := PErr.deserialized error (if s.verboseErrorMessage then some sub.stack else none)
    let s1 := { s with openSignalSubscriptions := alDel s.openSignalSubscriptions subscribeId }
    let u := updateOpenCommunicationsCount s1
    (u.1, Effect.signalErrored subscribeId e :: u.2)

/-- Handler for an inbound `writableSignalUpdate` frame
(`receivedWritableSignalUpdate`), shaped like `receivedSignalUpdate` on the
writable table. -/
def receivedWritableSignalUpdate (s : PortState) (subscribeId : Nat) (patches : List Patch)
    (tags : List WriteTag) : PortState × List Effect :=
  match alGet s.openWritableSignalSubscriptions subscribeId with
  | none =>
    communicationWarning s
      ("Received writableSignalUpdate for unknown signal, subscribeId = " ++ toString subscribeId)
  | some sub =>
    let afterValue := applyPatches sub.currentValue patches
    match sub.endpoint.signalData afterValue with
    | none =>
      communicationWarning s
        ("Received invalid writable signal patch data, subscribeId = " ++ toString subscribeId)
    | some parsed =>
      let sub' : OpenWritableSignalSubscription := { sub with value := some parsed }
      let s1 := { s with
        openWritableSignalSubscriptions := alSet s.openWritableSignalSubscriptions subscribeId sub' }
      (s1, [Effect.wsignalSetValue subscribeId parsed tags])

/-- Handler for an inbound `writableSignalError` frame
(`receivedWritableSignalError`). -/
def receivedWritableSignalError (s : PortState) (subscribeId : Nat) (error : Value) :
    PortState × List Effect :=
  match alGet s.openWritableSignalSubscriptions subscribeId with
  | none =>
    communicationWarning s
      ("Received writableSignalError for unknown signal, subscribeId = " ++ toString subscribeId)
  | some sub =>
    let e := PErr.deserialized error (if s.verboseErrorMessage then some sub.stack else none)
    let tbl := alDel s.openWritableSignalSubscriptions subscribeId
    let s1 := { s with openWritableSignalSubscriptions := tbl }
    let u := updateOpenCommunicationsCount s1
    (u.1, Effect.wsignalErrored subscribeId e :: u.2)

/-- Handler for an inbound `communicationWarning` frame
(`receivedCommunicationWarning`): log at warn level only; no counter change,
no outbound frame. -/
def receivedCommunicationWarning (s : PortState) (warning : String) : PortState × List Effect :=
  (s, [Effect.logWarn (receivedWarningText warning)])

/-- Handler for an inbound `keepAliveAck` frame: do nothing. -/
def receivedKeepAliveAck (s : PortState) : PortState × List Effect :=
  (s, [])

/-- The port's `receivedMessage` dispatcher over inbound frames. -/
def receivedMessage (s : PortState) (m : Msg) : PortState × List Effect :=
  match m with
  | .channelSend channelId message => receivedChannelSend s channelId message
  | .channelAck channelId ackId => receivedChannelAck s channelId ackId
  | .channelClose channelId => receivedChannelClose s channelId
  | .channelError channelId error => receivedChannelError s channelId error
  | .rpcResult callId result => receivedRpcResult s callId result
  | .rpcError callId error => receivedRpcError s callId error
  | .signalUpdate subscribeId patches tags => receivedSignalUpdate s subscribeId patches tags
  | .signalError subscribeId error => receivedSignalError s subscribeId error
  | .writableSignalUpdate subscribeId patches tags =>
    receivedWritableSignalUpdate s subscribeId patches tags
  | .writableSignalError subscribeId error => receivedWritableSignalError s subscribeId error
  | .communicationWarning warning => receivedCommunicationWarning s warning
  | .keepAliveAck => receivedKeepAliveAck s

/-- The port's transport `onError` callback (`errored`): call every open
channel's error sink with the error, reject every ongoing RPC with the
error. The in-flight tables, the open-communications count and the signal
subscription tables are not touched. -/
def errored (s : PortState) (error : Value) : PortState × List Effect :=
  (s, (s.openChannels.map fun kv => Effect.channelErrored kv.1 (PErr.fromTransport error)) ++
      (s.ongoingRpcs.map fun kv => Effect.rpcReject kv.1 (PErr.fromTransport error)))

/-- The stand-in for `getCurrentStack(1)` used when the caller supplies no
stack. -/
def capturedStack : String := "captured stack"

/-- The port's `callRpc`: look up the endpoint (throwing on an unknown
name), parse the parameter (throwing on schema failure), allocate the call
id from the shared channel/RPC counter, install the `OngoingRpc`, send the
`rpcCall` frame, recompute the open count. Returns the allocated call id on
success; the thrown error message on synchronous failure. -/
def callRpc (s : PortState) (endpointName : String) (param : Value) (stackO : Option String) :
    PortState × List Effect × Except String Nat :=
  match s.backendInterface.getRpcEndpoint endpointName with
  | none => (s, [], .error ("No Rpc endpoint with name " ++ endpointName))
  | some endpoint =>
    match endpoint.parameter param with
    | none => (s, [], .error ("Invalid parameter for Rpc endpoint " ++ endpointName))
    | some parameter =>
      let callId := s.nextChannelId
      let stack := stackO.getD capturedStack
      let s1 := { s with
        nextChannelId := s.nextChannelId + 1,
        ongoingRpcs := alSet s.ongoingRpcs callId ⟨endpoint, stack⟩ }
      let u := updateOpenCommunicationsCount s1
      (u.1, Effect.sendFrame (Frame.rpcCall endpointName callId parameter) :: u.2, .ok callId)

/-- The port's `createChannel`: look up, parse the creation parameter,
allocate the channel id from the shared channel/RPC counter, send
`channelCreate`, install the `OpenChannel`, recompute the open count.
Returns the allocated channel id on success. -/
def createChannel (s : PortState) (endpointName : String) (param : Value)
    (stackO : Option String) : PortState × List Effect × Except String Nat :=
  match s.backendInterface.getChannelEndpoint endpointName with
  | none => (s, [], .error ("No channel endpoint with name " ++ endpointName))
  | some channelEndpoint =>
    match channelEndpoint.creationParameter param with
    | none => (s, [], .error ("Invalid creation parameter for channel endpoint " ++ endpointName))
    | some creationParameter =>
      let channelId := s.nextChannelId
      let stack := stackO.getD capturedStack
      let s1 := { s with
        nextChannelId := s.nextChannelId + 1,
        openChannels := alSet s.openChannels channelId ⟨channelEndpoint, stack⟩ }
      let u := updateOpenCommunicationsCount s1
      (u.1,
       Effect.sendFrame (Frame.channelCreate endpointName channelId creationParameter) :: u.2,
       .ok channelId)

/-- The data captured by the closure that `createSignal` hands to
`LazySignal.createWithoutInitialValue`: the resolved endpoint, its name, the
parsed creation parameter and the captured stack. -/
structure SignalClosure where
  endpoint : SignalEndpoint
  endpointName : String
  creationParameter : Value
  stack : String

/-- The synchronous part of the port's `createSignal`: look up the endpoint
(throwing on an unknown name) and parse the creation parameter (throwing on
schema failure). No state change and no frame; the subscription work is
deferred to the first observer attach. -/
def createSignal (s : PortState) (endpointName : String) (param : Value)
    (stackO : Option String) : Except String SignalClosure :=
  match s.backendInterface.getSignalEndpoint endpointName with
  | none => .error ("No signal endpoint with name " ++ endpointName)
  | some signalEndpoint =>
    match signalEndpoint.creationParameter param with
    | none => .error ("Invalid creation parameter for signal endpoint " ++ endpointName)
    | some creationParameter =>
      .ok ⟨signalEndpoint, endpointName, creationParameter, stackO.getD capturedStack⟩

/-- The body of the `subscribeUpstream` closure built in `createSignal`,
run when the first observer attaches to the lazy signal (the lazy trigger
itself is the `LazySignal` contract, which lives outside this repository's
sources): allocate a subscribe id from the signal counter, send
`signalSubscribe`, install the `OpenSignalSubscription`, recompute the open
count. Returns the allocated subscribe id. -/
def signalSubscribeUpstream (s : PortState) (c : SignalClosure) :
    PortState × List Effect × Nat :=
  let subscribeId := s.nextSubscribeId
  let rec0 : OpenSignalSubscription := ⟨c.endpoint, none, c.stack⟩
  let s1 := { s with
    nextSubscribeId := s.nextSubscribeId + 1,
    openSignalSubscriptions := alSet s.openSignalSubscriptions subscribeId rec0 }
  let u := updateOpenCommunicationsCount s1
  (u.1,
   Effect.sendFrame (Frame.signalSubscribe c.endpointName subscribeId c.creationParameter) :: u.2,
   subscribeId)

/-- The teardown closure returned by `createSignal`'s `subscribeUpstream`,
run when the last observer detaches: it only sends `signalUnsubscribe`; the
`OpenSignalSubscription` record is not removed from the table and the open
count is not recomputed (faithful to the source). -/
def signalUnsubscribeUpstream (s : PortState) (subscribeId : Nat) : PortState × List Effect :=
  (s, [Effect.sendFrame (Frame.signalUnsubscribe subscribeId)])

/-- The data captured by the closures built in `createWritableSignal`. -/
structure WritableSignalClosure where
  endpoint : SignalEndpoint
  endpointName : String
  creationParameter : Value
  stack : String

/-- The synchronous part of the port's `createWritableSignal` (lookup and
creation-parameter parse; both throw synchronously on failure). -/
def createWritableSignal (s : PortState) (endpointName : String) (param : Value)
    (stackO : Option String) : Except String WritableSignalClosure :=
  match s.backendInterface.getWritableSignalEndpoint endpointName with
  | none => .error ("No writable signal endpoint with name " ++ endpointName)
  | some signalEndpoint =>
    match signalEndpoint.creationParameter param with
    | none => .error ("Invalid creation parameter for writable signal endpoint " ++ endpointName)
    | some creationParameter =>
      .ok ⟨signalEndpoint, endpointName, creationParameter, stackO.getD capturedStack⟩

/-- The `writeUpstream` closure installed by `createWritableSignal`, keyed on
the mutable `currentSubscribeId` captured by the closure. Invoked with no
active upstream session (`currentSubscribeId === null`) it throws
"writeUpstream called when not subscribed" and sends nothing; with an active
session it sends one `writableSignalUpdate` frame carrying the session's
subscribe id, the patches and the tags. The first component is the list of
frames sent; the second is the thrown error, if any. -/
def writeUpstream (currentSubscribeId : Option Nat) (patches : List Patch)
    (tags : List WriteTag) : List Frame × Option String :=
  match currentSubscribeId with
  | none => ([], some "writeUpstream called when not subscribed")
  | some subscribeId => ([Frame.writableSignalUpdate subscribeId patches tags], none)

/-- The body of the `subscribeUpstream` closure built in
`createWritableSignal`, run at first observer attach: allocate from the
writable-signal counter, set the closure's `currentSubscribeId`, send
`writableSignalSubscribe`, install the record, recompute the open count.
Returns the new `currentSubscribeId` (always `some` of the allocated id)
next to the allocated id. -/
def writableSignalSubscribeUpstream (s : PortState) (c : WritableSignalClosure) :
    PortState × Option Nat × List Effect × Nat :=
  let subscribeId := s.nextWritableSubscribeId
  let rec0 : OpenWritableSignalSubscription := ⟨c.endpoint, none, c.stack⟩
  let s1 := { s with
    nextWritableSubscribeId := s.nextWritableSubscribeId + 1,
    openWritableSignalSubscriptions := alSet s.openWritableSignalSubscriptions subscribeId rec0 }
  let u := updateOpenCommunicationsCount s1
  (u.1, some subscribeId,
   Effect.sendFrame
     (Frame.writableSignalSubscribe c.endpointName subscribeId c.creationParameter) :: u.2,
   subscribeId)

/-- The teardown closure of `createWritableSignal`'s `subscribeUpstream`,
run at last observer detach: null out `currentSubscribeId` (so stray
upstream writes fail fast) and send `writableSignalUnsubscribe`. As for
read-only signals, the record is not removed from the table. -/
def writableSignalUnsubscribeUpstream (s : PortState) (subscribeId : Nat) :
    PortState × Option Nat × List Effect :=
  (s, none, [Effect.sendFrame (Frame.writableSignalUnsubscribe subscribeId)])

/-- Which of the port's three id counters an allocation came from:
`chanRpc` is the shared `nextChannelId` used by both `callRpc` and
`createChannel`; `sub` is `nextSubscribeId`; `wsub` is
`nextWritableSubscribeId`. -/
inductive CounterKind where
  | chanRpc : CounterKind
  | sub : CounterKind
  | wsub : CounterKind
deriving DecidableEq, Repr

/-- The operation that performed an id allocation. -/
inductive AllocSrc where
  | rpc : AllocSrc
  | channel : AllocSrc
  | signal : AllocSrc
  | wsignal : AllocSrc
deriving DecidableEq, Repr

/-- The counter each allocating operation draws from: `callRpc` and
`createChannel` share `nextChannelId`; the two signal flavours have their
own counters. -/
def AllocSrc.counter : AllocSrc → CounterKind
  | .rpc => .chanRpc
  | .channel => .chanRpc
  | .signal => .sub
  | .wsignal => .wsub

/-- One id allocation event. -/
structure Alloc where
  src : AllocSrc
  id : Nat
deriving DecidableEq, Repr

/-- Read one of the three id counters of a port state. -/
def PortState.counterVal (s : PortState) : CounterKind → Nat
  | .chanRpc => s.nextChannelId
  | .sub => s.nextSubscribeId
  | .wsub => s.nextWritableSubscribeId

/-- A user- or transport-originated step of the port, for whole-lifetime
reasoning. The attach operations run the corresponding `createXxx` and, on
success, the `subscribeUpstream` body (the first-observer trigger of the
lazy signal); the detach operations run the teardown closures. -/
inductive PortOp where
  | rpcOp (name : String) (param : Value) (stack : Option String) : PortOp
  | channelOp (name : String) (param : Value) (stack : Option String) : PortOp
  | signalAttachOp (name : String) (param : Value) (stack : Option String) : PortOp
  | wsignalAttachOp (name : String) (param : Value) (stack : Option String) : PortOp
  | signalDetachOp (subscribeId : Nat) : PortOp
  | wsignalDetachOp (subscribeId : Nat) : PortOp
  | recvOp (m : Msg) : PortOp
  | transportErrorOp (e : Value) : PortOp

/-- Run one port operation, recording the id allocations it performs. -/
def stepOp (s : PortState) (op : PortOp) : PortState × List Alloc :=
  match op with
  | .rpcOp name param stack =>
    let r := callRpc s name param stack
    (r.1, match r.2.2 with | .ok id => [⟨.rpc, id⟩] | .error _ => [])
  | .channelOp name param stack =>
    let r := createChannel s name param stack
    (r.1, match r.2.2 with | .ok id => [⟨.channel, id⟩] | .error _ => [])
  | .signalAttachOp name param stack =>
    match createSignal s name param stack with
    | .error _ => (s, [])
    | .ok c =>
      let r := signalSubscribeUpstream s c
      (r.1, [⟨.signal, r.2.2⟩])
  | .wsignalAttachOp name param stack =>
    match createWritableSignal s name param stack with
    | .error _ => (s, [])
    | .ok c =>
      let r := writableSignalSubscribeUpstream s c
      (r.1, [⟨.wsignal, r.2.2.2⟩])
  | .signalDetachOp subscribeId => ((signalUnsubscribeUpstream s subscribeId).1, [])
  | .wsignalDetachOp subscribeId => ((writableSignalUnsubscribeUpstream s subscribeId).1, [])
  | .recvOp m => ((receivedMessage s m).1, [])
  | .transportErrorOp e => ((errored s e).1, [])

/-- Run a list of port operations, concatenating the allocation events in
chronological order. -/
def runOps (s : PortState) (ops : List PortOp) : PortState × List Alloc :=
  match ops with
  | [] => (s, [])
  | op :: rest =>
    let r := stepOp s op
    let r' := runOps r.1 rest
    (r'.1, r.2 ++ r'.2)

/-- Run a list of inbound frames through `receivedMessage`, concatenating
the effects in order. -/
def runRecv (s : PortState) (ms : List Msg) : PortState × List Effect :=
  match ms with
  | [] => (s, [])
  | m :: rest =>
    let r := receivedMessage s m
    let r' := runRecv r.1 rest
    (r'.1, r.2 ++ r'.2)

/-- Whether an effect is an outbound frame. -/
def Effect.isSendFrame : Effect → Bool
  | .sendFrame _ => true
  | _ => false

/-- Whether an effect is an outbound `communicationWarning` frame. -/
def Effect.isWarningFrame : Effect → Bool
  | .sendFrame (Frame.communicationWarning _) => true
  | _ => false

/-- Whether an effect is a warn-level log line. -/
def Effect.isWarnLog : Effect → Bool
  | .logWarn _ => true
  | _ => false

/-- Whether an effect is an error-level log line. -/
def Effect.isErrorLog : Effect → Bool
  | .logError _ => true
  | _ => false

/-- Whether an effect belongs to the warning machinery (local logs and the
outbound `communicationWarning` frame): exactly what `communicationWarning`
may emit. -/
def Effect.isWarnish : Effect → Bool
  | .logWarn _ => true
  | .logError _ => true
  | .sendFrame (Frame.communicationWarning _) => true
  | _ => false

/-- Whether an effect reaches user-facing observer state (a future, a
channel sink, or a signal listener/error sink). -/
def Effect.isObserverEffect : Effect → Bool
  | .rpcResolve _ _ => true
  | .rpcReject _ _ => true
  | .channelMessage _ _ => true
  | .channelAckEffect _ _ => true
  | .channelClosed _ => true
  | .channelErrored _ _ => true
  | .signalSetValue _ _ _ => true
  | .signalErrored _ _ => true
  | .wsignalSetValue _ _ _ => true
  | .wsignalErrored _ _ => true
  | _ => false

/-- The number of outbound `communicationWarning` frames in an effect list. -/
def countWarningFrames (l : List Effect) : Nat := (l.filter Effect.isWarningFrame).length

/-- The number of warn-level log lines in an effect list. -/
def countWarnLogs (l : List Effect) : Nat := (l.filter Effect.isWarnLog).length

/-- The number of error-level log lines in an effect list. -/
def countErrorLogs (l : List Effect) : Nat := (l.filter Effect.isErrorLog).length

/-- Well-formedness of a port state, an invariant of every reachable state:
the four tables have pairwise distinct keys and the cached
open-communications count agrees with the table sizes. -/
def WF (s : PortState) : Prop :=
  (alKeys s.openChannels).Nodup ∧ (alKeys s.ongoingRpcs).Nodup ∧
  (alKeys s.openSignalSubscriptions).Nodup ∧
  (alKeys s.openWritableSignalSubscriptions).Nodup ∧
  s.openCommunicationsCount = openCount s

lemma alGet_alSet_self {κ α : Type} [DecidableEq κ] (l : List (κ × α)) (k : κ) (v : α) :
    alGet (alSet l k v) k = some v := by
  induction l with
  | nil => simp [alSet, alGet]
  | cons hd tl ih =>
    obtain ⟨k', v'⟩ := hd
    by_cases h : k' = k <;> simp [alSet, alGet, h, ih]

lemma alDel_length {κ α : Type} [DecidableEq κ] (l : List (κ × α)) (k : κ) (v : α)
    (h : alGet l k = some v) : (alDel l k).length + 1 = l.length := by
  induction l with
  | nil => simp [alGet] at h
  | cons hd tl ih =>
    obtain ⟨k', v'⟩ := hd
    by_cases hk : k' = k
    · simp [alDel, hk]
    · simp [alGet, hk] at h
      simp [alDel, hk, ih h]

lemma alGet_alDel_of_nodup {κ α : Type} [DecidableEq κ] (l : List (κ × α)) (k : κ)
    (h : (alKeys l).Nodup) : alGet (alDel l k) k = none := by
  induction l with
  | nil => simp [alDel, alGet]
  | cons hd tl ih =>
    obtain ⟨k', v'⟩ := hd
    simp only [alKeys, List.map_cons, List.nodup_cons] at h
    by_cases hk : k' = k
    · subst hk
      simp only [alDel, if_pos rfl]
      cases hg : alGet tl k' with
      | none => exact hg
      | some w =>
        exfalso
        apply h.1
        clear ih h
        induction tl with
        | nil => simp [alGet] at hg
        | cons hd2 tl2 ih2 =>
          obtain ⟨k2, v2⟩ := hd2
          by_cases h2 : k2 = k'
          · subst h2; simp [alKeys]
          · simp only [alGet, if_neg h2] at hg
            simp [alKeys] at ih2 ⊢
            right
            have := ih2 hg
            simpa [alKeys] using this
    · simp only [alDel, if_neg hk, alGet]
      exact ih (by simpa [alKeys] using h.2)

lemma communicationWarning_eq (s : PortState) (w : String) :
    communicationWarning s w =
      if 5 ≤ s.producedCommunicationWarningsCount then (s, [])
      else
        ({ s with producedCommunicationWarningsCount :=
            s.producedCommunicationWarningsCount + 1 },
         if 4 ≤ s.producedCommunicationWarningsCount then
           [Effect.logWarn (producedWarningText w),
            Effect.sendFrame (Frame.communicationWarning w),
            Effect.logError suppressionText]
         else
           [Effect.logWarn (producedWarningText w),
            Effect.sendFrame (Frame.communicationWarning w)]) := by
  unfold communicationWarning
  by_cases h5 : 5 ≤ s.producedCommunicationWarningsCount
  · simp [h5]
  · by_cases h4 : 4 ≤ s.producedCommunicationWarningsCount
    · have : 5 ≤ s.producedCommunicationWarningsCount + 1 := by omega
      simp [h5, h4, this]
    · have : ¬ 5 ≤ s.producedCommunicationWarningsCount + 1 := by omega
      simp [h5, h4, this]

lemma updateOpenCommunicationsCount_fst (s : PortState) :
    (updateOpenCommunicationsCount s).1 = { s with openCommunicationsCount := openCount s } := by
  by_cases h1 : openCount s = 0 ∧ 0 < s.openCommunicationsCount
  · simp [updateOpenCommunicationsCount, h1]
  · by_cases h2 : openCount s = 1 ∧ s.openCommunicationsCount = 0
    · simp [updateOpenCommunicationsCount, h1, h2]
    · simp [updateOpenCommunicationsCount, h1, h2]

lemma alGet_some_mem {κ α : Type} [DecidableEq κ] (l : List (κ × α)) (k : κ) (v : α)
    (h : alGet l k = some v) : (k, v) ∈ l := by
  induction l with
  | nil => simp [alGet] at h
  | cons hd tl ih =>
    obtain ⟨k', v'⟩ := hd
    by_cases hk : k' = k
    · subst hk
      simp [alGet] at h
      simp [h]
    · simp only [alGet, if_neg hk] at h
      exact List.mem_cons_of_mem _ (ih h)

lemma communicationWarning_state (s : PortState) (w : String) :
    (communicationWarning s w).1.openChannels = s.openChannels ∧
    (communicationWarning s w).1.ongoingRpcs = s.ongoingRpcs ∧
    (communicationWarning s w).1.openSignalSubscriptions = s.openSignalSubscriptions ∧
    (communicationWarning s w).1.openWritableSignalSubscriptions =
      s.openWritableSignalSubscriptions ∧
    (communicationWarning s w).1.openCommunicationsCount = s.openCommunicationsCount ∧
    (communicationWarning s w).1.nextChannelId = s.nextChannelId ∧
    (communicationWarning s w).1.nextSubscribeId = s.nextSubscribeId ∧
    (communicationWarning s w).1.nextWritableSubscribeId = s.nextWritableSubscribeId := by
  rw [communicationWarning_eq]
  split <;> simp

lemma communicationWarning_effects_warnish (s : PortState) (w : String) :
    ∀ e ∈ (communicationWarning s w).2, e.isWarnish = true := by
  rw [communicationWarning_eq]
  split
  · simp
  · split <;> intro e he <;> simp at he <;> rcases he with h | h <;>
      first
        | (subst h; rfl)
        | (rcases h with h | h <;> subst h <;> rfl)

lemma communicationWarning_frame_count (s : PortState) (w : String) :
    countWarningFrames (communicationWarning s w).2 =
      if 5 ≤ s.producedCommunicationWarningsCount then 0 else 1 := by
  rw [communicationWarning_eq]
  split <;> rename_i h
  · simp [countWarningFrames, h]
  · split <;> simp [countWarningFrames, List.filter, Effect.isWarningFrame, h]

lemma communicationWarning_send_count (s : PortState) (w : String) :
    ((communicationWarning s w).2.filter Effect.isSendFrame).length ≤ 1 := by
  rw [communicationWarning_eq]
  split
  · simp
  · split <;> simp [List.filter, Effect.isSendFrame]

lemma communicationWarning_warnlog_count (s : PortState) (w : String) :
    countWarnLogs (communicationWarning s w).2 =
      if 5 ≤ s.producedCommunicationWarningsCount then 0 else 1 := by
  rw [communicationWarning_eq]
  split <;> rename_i h
  · simp [countWarnLogs, h]
  · split <;> simp [countWarnLogs, List.filter, Effect.isWarnLog, h]

lemma communicationWarning_errorlog_count (s : PortState) (w : String) :
    countErrorLogs (communicationWarning s w).2 =
      if s.producedCommunicationWarningsCount = 4 then 1 else 0 := by
  rw [communicationWarning_eq]
  split <;> rename_i h
  · have : ¬ s.producedCommunicationWarningsCount = 4 := by omega
    simp [countErrorLogs, this]
  · split <;> rename_i h4
    · have : s.producedCommunicationWarningsCount = 4 := by omega
      simp [countErrorLogs, List.filter, Effect.isErrorLog, this]
    · have : ¬ s.producedCommunicationWarningsCount = 4 := by omega
      simp [countErrorLogs, List.filter, Effect.isErrorLog, this]

lemma communicationWarning_counter (s : PortState) (w : String) :
    (communicationWarning s w).1.producedCommunicationWarningsCount =
      if 5 ≤ s.producedCommunicationWarningsCount then
        s.producedCommunicationWarningsCount
      else s.producedCommunicationWarningsCount + 1 := by
  rw [communicationWarning_eq]
  split <;> simp

/-- A schema accepting numbers and returning them unchanged. -/
def schemaNum : Schema := fun v =>
  match v with
  | .vnum n => some (.vnum n)
  | _ => none

/-- A schema accepting strings and returning them unchanged. -/
def schemaString : Schema := fun v =>
  match v with
  | .vstr s => some (.vstr s)
  | _ => none

/-- A schema accepting objects with numeric fields `a` and `b`. -/
def schemaAB : Schema := fun v =>
  match objGet v "a", objGet v "b" with
  | some (.vnum _), some (.vnum _) => some v
  | _, _ => none

/-- A schema accepting objects with a numeric field `n`. -/
def schemaN : Schema := fun v =>
  match objGet v "n" with
  | some (.vnum _) => some v
  | _ => none

/-- A schema accepting everything unchanged. -/
def schemaAny : Schema := fun v => some v

/-- A transforming schema: parsing succeeds on any input and produces the
fixed value `c` (zod schemas may transform; `filteredArray` in this
repository is a concrete transforming schema). -/
def schemaConst (c : Value) : Schema := fun _ => some c

/-- The rpc endpoint `add` of scenario S1. -/
def exAddEndpoint : RpcEndpoint := ⟨"add", schemaAB, schemaNum⟩

/-- An example channel endpoint. -/
def exChanEndpoint : ChannelEndpoint := ⟨"chan", schemaAny, schemaAny, schemaString⟩

/-- The signal endpoint `counter` of scenario S4. -/
def exSigEndpoint : SignalEndpoint := ⟨"counter", schemaString, schemaN⟩

/-- A writable signal endpoint with a transforming `signalData` schema. -/
def exWSigEndpoint : SignalEndpoint := ⟨"wcounter", schemaString, schemaN⟩

/-- An example registry holding one endpoint of each kind. -/
def exBackend : BackendInterface :=
  ⟨[("add", exAddEndpoint)], [("chan", exChanEndpoint)],
   [("counter", exSigEndpoint)], [("wcounter", exWSigEndpoint)]⟩

/-- A freshly constructed port over `exBackend`: empty tables, zero counters. -/
def freshPort : PortState := ⟨exBackend, [], [], [], [], 0, 0, 0, 0, 0, false⟩

/-- The object value `{a:2, b:3}`. -/
def vAB : Value := .objCons "a" (.vnum 2) (.objCons "b" (.vnum 3) .objNil)

/-- C8: calling `callRpc` with an endpoint name absent from the registry, or
with a parameter failing the endpoint's `parameter` schema, fails
synchronously with the corresponding error and returns the state unchanged
with no effects: no `rpcCall` frame is sent, no `OngoingRpc` is installed,
and the open-communications count (like every other field) is unchanged. -/
theorem callRpc_synchronous_failure :
    (∀ (s : PortState) (name : String) (param : Value) (st : Option String),
      s.backendInterface.getRpcEndpoint name = none →
      callRpc s name param st = (s, [], .error ("No Rpc endpoint with name " ++ name))) ∧
    (∀ (s : PortState) (name : String) (param : Value) (st : Option String) (ep : RpcEndpoint),
      s.backendInterface.getRpcEndpoint name = some ep →
      ep.parameter param = none →
      callRpc s name param st =
        (s, [], .error ("Invalid parameter for Rpc endpoint " ++ name))) := by
  constructor
  · intro s name param st h
    simp [callRpc, h]
  · intro s name param st ep h hp
    simp [callRpc, h, hp]

/-- Witness for `callRpc_synchronous_failure`: the unknown endpoint `nope`
and scenario S2's invalid parameter `{a:"x", b:3}` on `add`. -/
theorem callRpc_synchronous_failure_witness :
    freshPort.backendInterface.getRpcEndpoint "nope" = none ∧
    callRpc freshPort "nope" vAB none =
      (freshPort, [], .error "No Rpc endpoint with name nope") ∧
    freshPort.backendInterface.getRpcEndpoint "add" = some exAddEndpoint ∧
    exAddEndpoint.parameter (.objCons "a" (.vstr "x") (.objCons "b" (.vnum 3) .objNil)) = none ∧
    callRpc freshPort "add" (.objCons "a" (.vstr "x") (.objCons "b" (.vnum 3) .objNil)) none =
      (freshPort, [], .error "Invalid parameter for Rpc endpoint add") :=
  ⟨rfl,
   callRpc_synchronous_failure.1 freshPort "nope" vAB none rfl,
   rfl, rfl,
   callRpc_synchronous_failure.2 freshPort "add"
     (.objCons "a" (.vstr "x") (.objCons "b" (.vnum 3) .objNil)) none exAddEndpoint rfl rfl⟩

/-- C1 (amended): when the transport fires `onError(E)`, every open
channel's error sink is called with `E` and every ongoing RPC future is
rejected with `E`, in table order; signal subscriptions are not terminated.
However, contrary to the original claim, `errored` does not clear the
tables and does not recompute the open-communications count: the state is
returned unchanged, the count keeps its previous value and no
no-open-communication transport edge is emitted. -/
theorem transport_error_propagation (s : PortState) (e : Value) :
    errored s e =
      (s, (s.openChannels.map fun kv => Effect.channelErrored kv.1 (PErr.fromTransport e)) ++
          (s.ongoingRpcs.map fun kv => Effect.rpcReject kv.1 (PErr.fromTransport e))) ∧
    (∀ id r, alGet s.ongoingRpcs id = some r →
      Effect.rpcReject id (PErr.fromTransport e) ∈ (errored s e).2) ∧
    (∀ id r, alGet s.openChannels id = some r →
      Effect.channelErrored id (PErr.fromTransport e) ∈ (errored s e).2) ∧
    (errored s e).1 = s ∧
    (errored s e).1.openCommunicationsCount = s.openCommunicationsCount ∧
    (∀ id pe, Effect.signalErrored id pe ∉ (errored s e).2) ∧
    (∀ id pe, Effect.wsignalErrored id pe ∉ (errored s e).2) ∧
    Effect.noOpenComm ∉ (errored s e).2 := by
  refine ⟨rfl, ?_, ?_, rfl, rfl, ?_, ?_, ?_⟩
  · intro id r h
    simp only [errored, List.mem_append, List.mem_map]
    right
    exact ⟨(id, r), alGet_some_mem _ _ _ h, rfl⟩
  · intro id r h
    simp only [errored, List.mem_append, List.mem_map]
    left
    exact ⟨(id, r), alGet_some_mem _ _ _ h, rfl⟩
  · intro id pe
    simp [errored]
  · intro id pe
    simp [errored]
  · simp [errored]

/-- A port state with two RPCs in flight (call ids 0, 1) and one open
channel (channel id 2), the situation of scenario S6. -/
def s6Port : PortState :=
  { freshPort with
    openChannels := [(2, ⟨exChanEndpoint, "stack chan"⟩)],
    ongoingRpcs := [(0, ⟨exAddEndpoint, "stack rpc0"⟩), (1, ⟨exAddEndpoint, "stack rpc1"⟩)],
    openCommunicationsCount := 3,
    nextChannelId := 3 }

/-- Counterexample to C1 as stated: on `s6Port` (two RPCs, one channel,
open-count 3) a transport error rejects the RPCs and errors the channel but
leaves both tables populated, leaves the open-communications count at 3
instead of returning it to 0, and emits no no-open-communication edge. -/
theorem transport_error_propagation_counterexample :
    (errored s6Port (.vstr "E")).2 =
      [Effect.channelErrored 2 (PErr.fromTransport (.vstr "E")),
       Effect.rpcReject 0 (PErr.fromTransport (.vstr "E")),
       Effect.rpcReject 1 (PErr.fromTransport (.vstr "E"))] ∧
    (errored s6Port (.vstr "E")).1.openCommunicationsCount = 3 ∧
    (errored s6Port (.vstr "E")).1.ongoingRpcs.length = 2 ∧
    (errored s6Port (.vstr "E")).1.openChannels.length = 1 ∧
    Effect.noOpenComm ∉ (errored s6Port (.vstr "E")).2 := by
  refine ⟨rfl, rfl, rfl, rfl, ?_⟩
  simp [errored, s6Port, freshPort]

/-- Witness for `transport_error_propagation` at `s6Port`: both RPC futures
reject with the transport error and the channel's error sink fires with it. -/
theorem transport_error_propagation_witness :
    Effect.rpcReject 0 (PErr.fromTransport (.vstr "E")) ∈ (errored s6Port (.vstr "E")).2 ∧
    Effect.rpcReject 1 (PErr.fromTransport (.vstr "E")) ∈ (errored s6Port (.vstr "E")).2 ∧
    Effect.channelErrored 2 (PErr.fromTransport (.vstr "E")) ∈ (errored s6Port (.vstr "E")).2 :=
  ⟨(transport_error_propagation s6Port (.vstr "E")).2.1 0 ⟨exAddEndpoint, "stack rpc0"⟩ rfl,
   (transport_error_propagation s6Port (.vstr "E")).2.1 1 ⟨exAddEndpoint, "stack rpc1"⟩ rfl,
   (transport_error_propagation s6Port (.vstr "E")).2.2.1 2 ⟨exChanEndpoint, "stack chan"⟩ rfl⟩

/-- C9: the writable signal's upstream writer fails with the
not-subscribed error and sends no frame whenever no upstream session is
active (`currentSubscribeId` is null — before the first attach and after
every detach, since the teardown nulls it and the attach sets it); while a
session is active it sends exactly one `writableSignalUpdate` frame with
the session's subscribe id, the patches and the tags. -/
theorem writable_signal_write_upstream :
    (∀ (patches : List Patch) (tags : List WriteTag),
      writeUpstream none patches tags =
        ([], some "writeUpstream called when not subscribed")) ∧
    (∀ (id : Nat) (patches : List Patch) (tags : List WriteTag),
      writeUpstream (some id) patches tags =
        ([Frame.writableSignalUpdate id patches tags], none)) ∧
    (∀ (s : PortState) (c : WritableSignalClosure),
      (writableSignalSubscribeUpstream s c).2.1 = some s.nextWritableSubscribeId) ∧
    (∀ (s : PortState) (id : Nat),
      (writableSignalUnsubscribeUpstream s id).2.1 = none) :=
  ⟨fun _ _ => rfl, fun _ _ _ => rfl, fun _ _ => rfl, fun _ _ => rfl⟩

/-- C10: an inbound `rpcResult` whose call id is known but whose result
fails the endpoint's `returns` schema produces (at most the capped) one
communication warning and drops the frame: the `OngoingRpc` table is
untouched (the record stays in flight), the open-communications count is
unchanged, the future is neither resolved nor rejected, and when the
warning budget is not yet exhausted exactly one `communicationWarning`
frame goes out. -/
theorem rpc_result_schema_failure (s : PortState) (callId : Nat) (result : Value)
    (rpc : OngoingRpc) (h : alGet s.ongoingRpcs callId = some rpc)
    (hfail : rpc.endpoint.returns result = none) :
    (receivedRpcResult s callId result).1.ongoingRpcs = s.ongoingRpcs ∧
    alGet (receivedRpcResult s callId result).1.ongoingRpcs callId = some rpc ∧
    (receivedRpcResult s callId result).1.openCommunicationsCount =
      s.openCommunicationsCount ∧
    (∀ e ∈ (receivedRpcResult s callId result).2, e.isWarnish = true) ∧
    (∀ v, Effect.rpcResolve callId v ∉ (receivedRpcResult s callId result).2) ∧
    (∀ pe, Effect.rpcReject callId pe ∉ (receivedRpcResult s callId result).2) ∧
    (s.producedCommunicationWarningsCount < 5 →
      countWarningFrames (receivedRpcResult s callId result).2 = 1) := by
  have hred : receivedRpcResult s callId result =
      communicationWarning s
        ("Received invalid result for rpc, endpointName = " ++ rpc.endpoint.name) := by
    simp [receivedRpcResult, h, hfail]
  rw [hred]
  refine ⟨(communicationWarning_state s _).2.1,
    ?_, (communicationWarning_state s _).2.2.2.2.1, communicationWarning_effects_warnish s _,
    ?_, ?_, ?_⟩
  · rw [(communicationWarning_state s _).2.1]
    exact h
  · intro v hv
    have := communicationWarning_effects_warnish s _ _ hv
    simp [Effect.isWarnish] at this
  · intro pe hpe
    have := communicationWarning_effects_warnish s _ _ hpe
    simp [Effect.isWarnish] at this
  · intro hlt
    rw [communicationWarning_frame_count]
    simp [Nat.not_le.mpr hlt]

/-- A port state with one RPC in flight (call id 0) on the `add` endpoint. -/
def rpcPort : PortState :=
  { freshPort with
    ongoingRpcs := [(0, ⟨exAddEndpoint, "stack rpc0"⟩)],
    openCommunicationsCount := 1,
    nextChannelId := 1 }

/-- Witness for `rpc_result_schema_failure`: on `rpcPort`, an `rpcResult`
for call 0 carrying the non-numeric result `"bad"` leaves the RPC in
flight, keeps the count at 1, settles nothing and sends one warning frame. -/
theorem rpc_result_schema_failure_witness :
    alGet rpcPort.ongoingRpcs 0 = some ⟨exAddEndpoint, "stack rpc0"⟩ ∧
    exAddEndpoint.returns (.vstr "bad") = none ∧
    ((receivedRpcResult rpcPort 0 (.vstr "bad")).1.ongoingRpcs = rpcPort.ongoingRpcs ∧
     alGet (receivedRpcResult rpcPort 0 (.vstr "bad")).1.ongoingRpcs 0 =
       some ⟨exAddEndpoint, "stack rpc0"⟩ ∧
     (receivedRpcResult rpcPort 0 (.vstr "bad")).1.openCommunicationsCount =
       rpcPort.openCommunicationsCount ∧
     (∀ e ∈ (receivedRpcResult rpcPort 0 (.vstr "bad")).2, e.isWarnish = true) ∧
     (∀ v, Effect.rpcResolve 0 v ∉ (receivedRpcResult rpcPort 0 (.vstr "bad")).2) ∧
     (∀ pe, Effect.rpcReject 0 pe ∉ (receivedRpcResult rpcPort 0 (.vstr "bad")).2) ∧
     (rpcPort.producedCommunicationWarningsCount < 5 →
       countWarningFrames (receivedRpcResult rpcPort 0 (.vstr "bad")).2 = 1)) :=
  ⟨rfl, rfl,
   rpc_result_schema_failure rpcPort 0 (.vstr "bad") ⟨exAddEndpoint, "stack rpc0"⟩ rfl rfl⟩

lemma updateOpenCommunicationsCount_effects (s : PortState) :
    (updateOpenCommunicationsCount s).2 = [] ∨
    (updateOpenCommunicationsCount s).2 = [Effect.noOpenComm] ∨
    (updateOpenCommunicationsCount s).2 = [Effect.oneOrMoreOpenComm] := by
  by_cases h1 : openCount s = 0 ∧ 0 < s.openCommunicationsCount
  · right; left; simp [updateOpenCommunicationsCount, h1]
  · by_cases h2 : openCount s = 1 ∧ s.openCommunicationsCount = 0
    · right; right; simp [updateOpenCommunicationsCount, h1, h2]
    · left; simp [updateOpenCommunicationsCount, h1, h2]

lemma updateOpenCommunicationsCount_no_observer (s : PortState) :
    ∀ e ∈ (updateOpenCommunicationsCount s).2, e.isObserverEffect = false := by
  intro e he
  rcases updateOpenCommunicationsCount_effects s with h | h | h <;> rw [h] at he <;>
    simp at he <;> subst he <;> rfl

lemma updateOpenCommunicationsCount_no_frame (s : PortState) :
    ∀ e ∈ (updateOpenCommunicationsCount s).2, e.isSendFrame = false := by
  intro e he
  rcases updateOpenCommunicationsCount_effects s with h | h | h <;> rw [h] at he <;>
    simp at he <;> subst he <;> rfl

/-- C2: the RPC round trip. First half: a successful `callRpc` returns the
call id allocated from the shared counter, sends exactly one frame — the
`rpcCall` frame carrying the validated (schema-parsed) parameter — settles
nothing (the future is still in the `OngoingRpc` table when `callRpc`
returns), and installs the record. Second half: an inbound `rpcResult` for
a known call id whose result passes the `returns` schema resolves the
future with the validated result, removes the record, and decreases the
open-communications count by exactly one. -/
theorem rpc_roundtrip :
    (∀ (s : PortState) (name : String) (param : Value) (st : Option String)
       (ep : RpcEndpoint) (validated : Value),
      s.backendInterface.getRpcEndpoint name = some ep →
      ep.parameter param = some validated →
      (callRpc s name param st).2.2 = .ok s.nextChannelId ∧
      ((callRpc s name param st).2.1.filter Effect.isSendFrame) =
        [Effect.sendFrame (Frame.rpcCall name s.nextChannelId validated)] ∧
      (∀ e ∈ (callRpc s name param st).2.1, e.isObserverEffect = false) ∧
      alGet (callRpc s name param st).1.ongoingRpcs s.nextChannelId =
        some ⟨ep, st.getD capturedStack⟩) ∧
    (∀ (s : PortState) (callId : Nat) (result : Value) (rpc : OngoingRpc) (parsed : Value),
      alGet s.ongoingRpcs callId = some rpc →
      rpc.endpoint.returns result = some parsed →
      (alKeys s.ongoingRpcs).Nodup →
      s.openCommunicationsCount = openCount s →
      Effect.rpcResolve callId parsed ∈ (receivedRpcResult s callId result).2 ∧
      alGet (receivedRpcResult s callId result).1.ongoingRpcs callId = none ∧
      (receivedRpcResult s callId result).1.openCommunicationsCount + 1 =
        s.openCommunicationsCount) := by
  constructor
  · intro s name param st ep validated hep hv
    have hred : callRpc s name param st =
        (let s1 := { s with
          nextChannelId := s.nextChannelId + 1,
          ongoingRpcs := alSet s.ongoingRpcs s.nextChannelId ⟨ep, st.getD capturedStack⟩ }
         let u := updateOpenCommunicationsCount s1
         (u.1, Effect.sendFrame (Frame.rpcCall name s.nextChannelId validated) :: u.2,
          .ok s.nextChannelId)) := by
      simp [callRpc, hep, hv]
    rw [hred]
    refine ⟨rfl, ?_, ?_, ?_⟩
    · simp only [List.filter]
      have : ∀ e ∈ (updateOpenCommunicationsCount { s with
          nextChannelId := s.nextChannelId + 1,
          ongoingRpcs := alSet s.ongoingRpcs s.nextChannelId ⟨ep, st.getD capturedStack⟩ }).2,
          e.isSendFrame = false := updateOpenCommunicationsCount_no_frame _
      rw [List.filter_eq_nil_iff.mpr (by intro e he; simp [this e he])]
      rfl
    · intro e he
      simp only [List.mem_cons] at he
      rcases he with h | h
      · subst h; rfl
      · exact updateOpenCommunicationsCount_no_observer _ e h
    · rw [updateOpenCommunicationsCount_fst]
      exact alGet_alSet_self _ _ _
  · intro s callId result rpc parsed h hp hnd hc
    have hred : receivedRpcResult s callId result =
        (let s1 := { s with ongoingRpcs := alDel s.ongoingRpcs callId }
         let u := updateOpenCommunicationsCount s1
         (u.1, Effect.rpcResolve callId parsed :: u.2)) := by
      simp [receivedRpcResult, h, hp]
    rw [hred]
    refine ⟨List.mem_cons_self _ _, ?_, ?_⟩
    · rw [updateOpenCommunicationsCount_fst]
      exact alGet_alDel_of_nodup _ _ hnd
    · rw [updateOpenCommunicationsCount_fst]
      have hlen := alDel_length s.ongoingRpcs callId rpc h
      dsimp only
      simp only [openCount] at hc ⊢
      omega

/-- The port state right after scenario S1's `callRpc("add", {a:2,b:3})` on
a fresh port: call id 0 in flight, open count 1. -/
def s1Port : PortState :=
  { freshPort with
    ongoingRpcs := [(0, ⟨exAddEndpoint, capturedStack⟩)],
    openCommunicationsCount := 1,
    nextChannelId := 1 }

/-- Witness for `rpc_roundtrip`, scenario S1: `callRpc("add",{a:2,b:3})` on
a fresh port sends `rpcCall add callId 0` with the validated parameter, and
feeding `rpcResult callId 0 result 5` resolves the future with `5`, removes
the record and brings the count from 1 back to 0. -/
theorem rpc_roundtrip_witness :
    (freshPort.backendInterface.getRpcEndpoint "add" = some exAddEndpoint ∧
     exAddEndpoint.parameter vAB = some vAB ∧
     ((callRpc freshPort "add" vAB none).2.2 = .ok freshPort.nextChannelId ∧
      ((callRpc freshPort "add" vAB none).2.1.filter Effect.isSendFrame) =
        [Effect.sendFrame (Frame.rpcCall "add" freshPort.nextChannelId vAB)] ∧
      (∀ e ∈ (callRpc freshPort "add" vAB none).2.1, e.isObserverEffect = false) ∧
      alGet (callRpc freshPort "add" vAB none).1.ongoingRpcs freshPort.nextChannelId =
        some ⟨exAddEndpoint, capturedStack⟩)) ∧
    (alGet s1Port.ongoingRpcs 0 = some ⟨exAddEndpoint, capturedStack⟩ ∧
     exAddEndpoint.returns (.vnum 5) = some (.vnum 5) ∧
     (Effect.rpcResolve 0 (.vnum 5) ∈ (receivedRpcResult s1Port 0 (.vnum 5)).2 ∧
      alGet (receivedRpcResult s1Port 0 (.vnum 5)).1.ongoingRpcs 0 = none ∧
      (receivedRpcResult s1Port 0 (.vnum 5)).1.openCommunicationsCount + 1 =
        s1Port.openCommunicationsCount)) :=
  ⟨⟨rfl, rfl, rpc_roundtrip.1 freshPort "add" vAB none exAddEndpoint vAB rfl rfl⟩,
   ⟨rfl, rfl, rpc_roundtrip.2 s1Port 0 (.vnum 5) ⟨exAddEndpoint, capturedStack⟩ (.vnum 5)
     rfl rfl (by simp [s1Port, alKeys]) rfl⟩⟩

/-- C5 (amended): for an inbound `signalUpdate` on a known subscribe id the
port computes `applyPatches(currentValue, patches)` with the current value
read through the record's getter. If the outcome fails the endpoint's
`signalData` schema, only the warning machinery runs: the subscription
table (hence the record's value) is untouched, no value is delivered, and
the count is unchanged. If it passes, the value delivered with the frame's
tags is the schema's parse output of that outcome (which coincides with the
outcome itself exactly when the schema parses it to itself; zod schemas may
transform). -/
theorem signal_update_patch_delivery (s : PortState) (subscribeId : Nat)
    (patches : List Patch) (tags : List WriteTag) (sub : OpenSignalSubscription)
    (h : alGet s.openSignalSubscriptions subscribeId = some sub) :
    (sub.endpoint.signalData (applyPatches sub.currentValue patches) = none →
      (receivedSignalUpdate s subscribeId patches tags).1.openSignalSubscriptions =
        s.openSignalSubscriptions ∧
      (∀ v t, Effect.signalSetValue subscribeId v t ∉
        (receivedSignalUpdate s subscribeId patches tags).2) ∧
      (receivedSignalUpdate s subscribeId patches tags).1.openCommunicationsCount =
        s.openCommunicationsCount ∧
      (∀ e ∈ (receivedSignalUpdate s subscribeId patches tags).2, e.isWarnish = true)) ∧
    (∀ parsed, sub.endpoint.signalData (applyPatches sub.currentValue patches) = some parsed →
      receivedSignalUpdate s subscribeId patches tags =
        ({ s with
            openSignalSubscriptions :=
                alSet s.openSignalSubscriptions subscribeId { sub with value := some parsed } },
         [Effect.signalSetValue subscribeId parsed tags])) := by
  constructor
  · intro hfail
    have hred : receivedSignalUpdate s subscribeId patches tags =
        communicationWarning s
          ("Received invalid signal patch data, subscribeId = " ++ toString subscribeId) := by
      simp [receivedSignalUpdate, h, hfail]
    rw [hred]
    refine ⟨(communicationWarning_state s _).2.2.1, ?_,
      (communicationWarning_state s _).2.2.2.2.1,
      communicationWarning_effects_warnish s _⟩
    intro v t hv
    have := communicationWarning_effects_warnish s _ _ hv
    simp [Effect.isWarnish] at this
  · intro parsed hok
    simp [receivedSignalUpdate, h, hok]

/-- A signal endpoint whose `signalData` schema transforms: parsing
succeeds on any value and produces the string `"T"`. -/
def exTransformEndpoint : SignalEndpoint := ⟨"t", schemaString, schemaConst (.vstr "T")⟩

/-- A port with one open signal subscription (subscribe id 0) on the
transforming endpoint, current value `0`. -/
def c5Port : PortState :=
  { freshPort with
    openSignalSubscriptions := [(0, ⟨exTransformEndpoint, some (.vnum 0), "st"⟩)],
    openCommunicationsCount := 1,
    nextSubscribeId := 1 }

/-- The root-replacing patch list `[{op:"replace", path:[], value:1}]`. -/
def c5Patches : List Patch := [⟨.replace, [], some (.vnum 1)⟩]

/-- Counterexample to C5 as stated: on `c5Port`, `applyPatches` of the
current value `0` under the root-replace patch is `1` and that outcome
passes the (transforming) `signalData` schema, yet the value delivered to
the subscription is the schema's parse output `"T"`, not the `applyPatches`
outcome `1`. -/
theorem signal_update_patch_delivery_counterexample :
    applyPatches (Value.vnum 0) c5Patches = Value.vnum 1 ∧
    (receivedSignalUpdate c5Port 0 c5Patches []).2 =
      [Effect.signalSetValue 0 (Value.vstr "T") []] ∧
    Value.vstr "T" ≠ Value.vnum 1 :=
  ⟨rfl, rfl, by decide⟩

/-- Witness for `signal_update_patch_delivery` at `c5Port`: the success
branch delivers the parsed value with the frame's tags, and a failing
branch (patching to a value the schema rejects) delivers nothing. -/
theorem signal_update_patch_delivery_witness :
    alGet c5Port.openSignalSubscriptions 0 =
      some ⟨exTransformEndpoint, some (.vnum 0), "st"⟩ ∧
    (OpenSignalSubscription.mk exTransformEndpoint (some (.vnum 0)) "st").endpoint.signalData
        (applyPatches (OpenSignalSubscription.mk exTransformEndpoint
          (some (.vnum 0)) "st").currentValue c5Patches) = some (Value.vstr "T") ∧
    receivedSignalUpdate c5Port 0 c5Patches [] =
      ({ c5Port with
          openSignalSubscriptions :=
              alSet c5Port.openSignalSubscriptions 0
                ⟨exTransformEndpoint, some (.vstr "T"), "st"⟩ },
       [Effect.signalSetValue 0 (Value.vstr "T") []]) :=
  ⟨rfl, rfl,
   (signal_update_patch_delivery c5Port 0 c5Patches []
     ⟨exTransformEndpoint, some (.vnum 0), "st"⟩ rfl).2 (Value.vstr "T") rfl⟩

/-- C4 (amended): an `OpenSignalSubscription` is removed from the table —
with the open-communications count decreasing by one — only on an inbound
`signalError` for its subscribe id, which also fires the record's error
sink exactly once. When the last observer detaches, the teardown closure
only sends a `signalUnsubscribe` frame: contrary to the original claim, the
record stays in the table and the open-communications count is not
recomputed. -/
theorem signal_subscription_release :
    (∀ (s : PortState) (subscribeId : Nat) (error : Value) (sub : OpenSignalSubscription),
      alGet s.openSignalSubscriptions subscribeId = some sub →
      (alKeys s.openSignalSubscriptions).Nodup →
      s.openCommunicationsCount = openCount s →
      alGet (receivedSignalError s subscribeId error).1.openSignalSubscriptions subscribeId =
        none ∧
      (receivedSignalError s subscribeId error).1.openCommunicationsCount + 1 =
        s.openCommunicationsCount ∧
      Effect.signalErrored subscribeId
          (PErr.deserialized error (if s.verboseErrorMessage then some sub.stack else none)) ∈
        (receivedSignalError s subscribeId error).2) ∧
    (∀ (s : PortState) (subscribeId : Nat),
      signalUnsubscribeUpstream s subscribeId =
        (s, [Effect.sendFrame (Frame.signalUnsubscribe subscribeId)])) := by
  constructor
  · intro s subscribeId error sub h hnd hc
    have hred : receivedSignalError s subscribeId error =
        (let s1 := { s with
          openSignalSubscriptions := alDel s.openSignalSubscriptions subscribeId }
         let u := updateOpenCommunicationsCount s1
         (u.1,
          Effect.signalErrored subscribeId
            (PErr.deserialized error
              (if s.verboseErrorMessage then some sub.stack else none)) :: u.2)) := by
      simp [receivedSignalError, h]
    rw [hred]
    refine ⟨?_, ?_, List.mem_cons_self _ _⟩
    · rw [updateOpenCommunicationsCount_fst]
      exact alGet_alDel_of_nodup _ _ hnd
    · rw [updateOpenCommunicationsCount_fst]
      have hlen := alDel_length s.openSignalSubscriptions subscribeId sub h
      dsimp only
      simp only [openCount] at hc ⊢
      omega
  · intro s subscribeId
    rfl

/-- The port state after the first observer attaches to scenario S4's
`counter` signal on a fresh port (subscribe id 0 allocated, record
installed, count 1). -/
def c4Attached : PortState :=
  (signalSubscribeUpstream freshPort ⟨exSigEndpoint, "counter", .vstr "p", "st"⟩).1

/-- Counterexample to C4 as stated: running the teardown (last observer
detaching) on `c4Attached` sends the `signalUnsubscribe` frame but leaves
the record in the table and the open-communications count at 1 — the
record is not released on observer detach. -/
theorem signal_subscription_release_counterexample :
    (alGet (signalUnsubscribeUpstream c4Attached 0).1.openSignalSubscriptions 0).isSome =
      true ∧
    (signalUnsubscribeUpstream c4Attached 0).1.openCommunicationsCount = 1 ∧
    (signalUnsubscribeUpstream c4Attached 0).2 =
      [Effect.sendFrame (Frame.signalUnsubscribe 0)] :=
  ⟨rfl, rfl, rfl⟩

/-- Witness for `signal_subscription_release`: on `c4Attached`, an inbound
`signalError` for subscribe id 0 removes the record, brings the count from
1 back to 0 and fires the error sink. -/
theorem signal_subscription_release_witness :
    (alGet c4Attached.openSignalSubscriptions 0 = some ⟨exSigEndpoint, none, "st"⟩ ∧
     (alKeys c4Attached.openSignalSubscriptions).Nodup ∧
     c4Attached.openCommunicationsCount = openCount c4Attached) ∧
    (alGet (receivedSignalError c4Attached 0 (.vstr "boom")).1.openSignalSubscriptions 0 =
       none ∧
     (receivedSignalError c4Attached 0 (.vstr "boom")).1.openCommunicationsCount + 1 =
       c4Attached.openCommunicationsCount ∧
     Effect.signalErrored 0 (PErr.deserialized (.vstr "boom") none) ∈
       (receivedSignalError c4Attached 0 (.vstr "boom")).2) :=
  ⟨⟨rfl, by simp [c4Attached, signalSubscribeUpstream, updateOpenCommunicationsCount_fst,
      freshPort, alSet, alKeys], rfl⟩,
   signal_subscription_release.1 c4Attached 0 (.vstr "boom") ⟨exSigEndpoint, none, "st"⟩
     rfl (by simp [c4Attached, signalSubscribeUpstream, updateOpenCommunicationsCount_fst,
       freshPort, alSet, alKeys]) rfl⟩

lemma warnish_not_observer (e : Effect) (h : e.isWarnish = true) :
    e.isObserverEffect = false := by
  cases e <;> simp [Effect.isObserverEffect] <;> simp [Effect.isWarnish] at h

lemma communicationWarning_dropped (s : PortState) (w : String) :
    (communicationWarning s w).1.openChannels = s.openChannels ∧
    (communicationWarning s w).1.ongoingRpcs = s.ongoingRpcs ∧
    (communicationWarning s w).1.openSignalSubscriptions = s.openSignalSubscriptions ∧
    (communicationWarning s w).1.openWritableSignalSubscriptions =
      s.openWritableSignalSubscriptions ∧
    (communicationWarning s w).1.openCommunicationsCount = s.openCommunicationsCount ∧
    (∀ e ∈ (communicationWarning s w).2, e.isWarnish = true) ∧
    ((communicationWarning s w).2.filter Effect.isSendFrame).length ≤ 1 ∧
    (∀ e ∈ (communicationWarning s w).2, e.isObserverEffect = false) := by
  obtain ⟨h1, h2, h3, h4, h5, _⟩ := communicationWarning_state s w
  exact ⟨h1, h2, h3, h4, h5, communicationWarning_effects_warnish s w,
    communicationWarning_send_count s w,
    fun e he => warnish_not_observer e (communicationWarning_effects_warnish s w e he)⟩

/-- Whether an inbound frame references an id absent from the table that
should hold it. Frames without an id reference (`communicationWarning`,
`keepAliveAck`) never qualify. -/
def refUnknown (s : PortState) (m : Msg) : Prop :=
  match m with
  | .channelSend channelId _ => alGet s.openChannels channelId = none
  | .channelAck channelId _ => alGet s.openChannels channelId = none
  | .channelClose channelId => alGet s.openChannels channelId = none
  | .channelError channelId _ => alGet s.openChannels channelId = none
  | .rpcResult callId _ => alGet s.ongoingRpcs callId = none
  | .rpcError callId _ => alGet s.ongoingRpcs callId = none
  | .signalUpdate subscribeId _ _ => alGet s.openSignalSubscriptions subscribeId = none
  | .signalError subscribeId _ => alGet s.openSignalSubscriptions subscribeId = none
  | .writableSignalUpdate subscribeId _ _ =>
    alGet s.openWritableSignalSubscriptions subscribeId = none
  | .writableSignalError subscribeId _ =>
    alGet s.openWritableSignalSubscriptions subscribeId = none
  | .communicationWarning _ => False
  | .keepAliveAck => False

/-- C6: an inbound frame whose id is not in the corresponding table is
dropped: all four in-flight tables and the open-communications count are
unchanged, every produced effect belongs to the warning machinery (so no
observer state — futures, channel sinks, signal listeners — is touched), at
most one frame (the `communicationWarning`) goes out, and the total handler
`receivedMessage` never throws. -/
theorem unknown_id_frame_dropped (s : PortState) (m : Msg) (h : refUnknown s m) :
    (receivedMessage s m).1.openChannels = s.openChannels ∧
    (receivedMessage s m).1.ongoingRpcs = s.ongoingRpcs ∧
    (receivedMessage s m).1.openSignalSubscriptions = s.openSignalSubscriptions ∧
    (receivedMessage s m).1.openWritableSignalSubscriptions =
      s.openWritableSignalSubscriptions ∧
    (receivedMessage s m).1.openCommunicationsCount = s.openCommunicationsCount ∧
    (∀ e ∈ (receivedMessage s m).2, e.isWarnish = true) ∧
    ((receivedMessage s m).2.filter Effect.isSendFrame).length ≤ 1 ∧
    (∀ e ∈ (receivedMessage s m).2, e.isObserverEffect = false) := by
  cases m with
  | channelSend channelId message =>
    simp only [refUnknown] at h
    have hred : receivedMessage s (.channelSend channelId message) =
        communicationWarning s
          ("Received channelSend for unknown channel, channelId = " ++ toString channelId) := by
      simp [receivedMessage, receivedChannelSend, h]
    rw [hred]; exact communicationWarning_dropped s _
  | channelAck channelId ackId =>
    simp only [refUnknown] at h
    have hred : receivedMessage s (.channelAck channelId ackId) =
        communicationWarning s
          ("Received channelAck for unknown channel, channelId = " ++ toString channelId) := by
      simp [receivedMessage, receivedChannelAck, h]
    rw [hred]; exact communicationWarning_dropped s _
  | channelClose channelId =>
    simp only [refUnknown] at h
    have hred : receivedMessage s (.channelClose channelId) =
        communicationWarning s
          ("Received channelClose for unknown channel, channelId = " ++ toString channelId) := by
      simp [receivedMessage, receivedChannelClose, h]
    rw [hred]; exact communicationWarning_dropped s _
  | channelError channelId error =>
    simp only [refUnknown] at h
    have hred : receivedMessage s (.channelError channelId error) =
        communicationWarning s
          ("Received channelError for unknown channel, channelId = " ++ toString channelId) := by
      simp [receivedMessage, receivedChannelError, h]
    rw [hred]; exact communicationWarning_dropped s _
  | rpcResult callId result =>
    simp only [refUnknown] at h
    have hred : receivedMessage s (.rpcResult callId result) =
        communicationWarning s
          ("Received rpcResult for unknown rpc, callId = " ++ toString callId) := by
      simp [receivedMessage, receivedRpcResult, h]
    rw [hred]; exact communicationWarning_dropped s _
  | rpcError callId error =>
    simp only [refUnknown] at h
    have hred : receivedMessage s (.rpcError callId error) =
        communicationWarning s
          ("Received rpcError for unknown rpc, callId = " ++ toString callId) := by
      simp [receivedMessage, receivedRpcError, h]
    rw [hred]; exact communicationWarning_dropped s _
  | signalUpdate subscribeId patches tags =>
    simp only [refUnknown] at h
    have hred : receivedMessage s (.signalUpdate subscribeId patches tags) =
        communicationWarning s
          ("Received signalUpdate for unknown signal, subscribeId = " ++ toString subscribeId) := by
      simp [receivedMessage, receivedSignalUpdate, h]
    rw [hred]; exact communicationWarning_dropped s _
  | signalError subscribeId error =>
    simp only [refUnknown] at h
    have hred : receivedMessage s (.signalError subscribeId error) =
        communicationWarning s
          ("Received signalError for unknown signal, subscribeId = " ++ toString subscribeId) := by
      simp [receivedMessage, receivedSignalError, h]
    rw [hred]; exact communicationWarning_dropped s _
  | writableSignalUpdate subscribeId patches tags =>
    simp only [refUnknown] at h
    have hred : receivedMessage s (.writableSignalUpdate subscribeId patches tags) =
        communicationWarning s
          ("Received writableSignalUpdate for unknown signal, subscribeId = " ++
            toString subscribeId) := by
      simp [receivedMessage, receivedWritableSignalUpdate, h]
    rw [hred]; exact communicationWarning_dropped s _
  | writableSignalError subscribeId error =>
    simp only [refUnknown] at h
    have hred : receivedMessage s (.writableSignalError subscribeId error) =
        communicationWarning s
          ("Received writableSignalError for unknown signal, subscribeId = " ++
            toString subscribeId) := by
      simp [receivedMessage, receivedWritableSignalError, h]
    rw [hred]; exact communicationWarning_dropped s _
  | communicationWarning warning => exact h.elim
  | keepAliveAck => exact h.elim

/-- Witness for `unknown_id_frame_dropped`, scenario S3: on a fresh port a
`signalUpdate` for the unknown subscribe id 42 changes no table, keeps the
count at 0 and produces only warning effects. -/
theorem unknown_id_frame_dropped_witness :
    refUnknown freshPort (.signalUpdate 42 [] []) ∧
    ((receivedMessage freshPort (.signalUpdate 42 [] [])).1.openChannels =
       freshPort.openChannels ∧
     (receivedMessage freshPort (.signalUpdate 42 [] [])).1.ongoingRpcs =
       freshPort.ongoingRpcs ∧
     (receivedMessage freshPort (.signalUpdate 42 [] [])).1.openSignalSubscriptions =
       freshPort.openSignalSubscriptions ∧
     (receivedMessage freshPort (.signalUpdate 42 [] [])).1.openWritableSignalSubscriptions =
       freshPort.openWritableSignalSubscriptions ∧
     (receivedMessage freshPort (.signalUpdate 42 [] [])).1.openCommunicationsCount =
       freshPort.openCommunicationsCount ∧
     (∀ e ∈ (receivedMessage freshPort (.signalUpdate 42 [] [])).2, e.isWarnish = true) ∧
     ((receivedMessage freshPort (.signalUpdate 42 [] [])).2.filter
        Effect.isSendFrame).length ≤ 1 ∧
     (∀ e ∈ (receivedMessage freshPort (.signalUpdate 42 [] [])).2,
        e.isObserverEffect = false)) :=
  ⟨rfl, unknown_id_frame_dropped freshPort (.signalUpdate 42 [] []) rfl⟩

lemma count_append (a b : List Effect) :
    countWarningFrames (a ++ b) = countWarningFrames a + countWarningFrames b ∧
    countWarnLogs (a ++ b) = countWarnLogs a + countWarnLogs b ∧
    countErrorLogs (a ++ b) = countErrorLogs a + countErrorLogs b := by
  simp [countWarningFrames, countWarnLogs, countErrorLogs, List.filter_append]

lemma warn_cap_aux (ms : List Msg) : ∀ s : PortState,
    s.openSignalSubscriptions = [] →
    (∀ m ∈ ms, ∃ id p t, m = Msg.signalUpdate id p t) →
    countWarningFrames (runRecv s ms).2 =
      min ms.length (5 - s.producedCommunicationWarningsCount) ∧
    countWarnLogs (runRecv s ms).2 =
      min ms.length (5 - s.producedCommunicationWarningsCount) ∧
    countErrorLogs (runRecv s ms).2 =
      (if s.producedCommunicationWarningsCount ≤ 4 ∧
          5 ≤ s.producedCommunicationWarningsCount + ms.length then 1 else 0) := by
  induction ms with
  | nil =>
    intro s _ _
    refine ⟨by simp [runRecv, countWarningFrames], by simp [runRecv, countWarnLogs], ?_⟩
    simp only [runRecv, countErrorLogs, List.filter_nil, List.length_nil]
    split_ifs <;> omega
  | cons m rest ih =>
    intro s hts hms
    obtain ⟨id, p, t, rfl⟩ := hms m (List.mem_cons_self m rest)
    have hget : alGet s.openSignalSubscriptions id = none := by rw [hts]; rfl
    have hred : receivedMessage s (.signalUpdate id p t) =
        communicationWarning s
          ("Received signalUpdate for unknown signal, subscribeId = " ++ toString id) := by
      simp [receivedMessage, receivedSignalUpdate, hget]
    have hrun : runRecv s (Msg.signalUpdate id p t :: rest) =
        ((runRecv (receivedMessage s (.signalUpdate id p t)).1 rest).1,
         (receivedMessage s (.signalUpdate id p t)).2 ++
           (runRecv (receivedMessage s (.signalUpdate id p t)).1 rest).2) := by
      simp [runRecv]
    rw [hrun, hred]
    generalize ("Received signalUpdate for unknown signal, subscribeId = " ++ toString id) = w
    obtain ⟨_, _, ht3, _, _, _⟩ := communicationWarning_state s w
    have hts' : (communicationWarning s w).1.openSignalSubscriptions = [] := by rw [ht3, hts]
    have hrest : ∀ x ∈ rest, ∃ id p t, x = Msg.signalUpdate id p t :=
      fun x hx => hms x (List.mem_cons_of_mem _ hx)
    obtain ⟨ih1, ih2, ih3⟩ := ih (communicationWarning s w).1 hts' hrest
    obtain ⟨ha1, ha2, ha3⟩ :=
      count_append (communicationWarning s w).2 (runRecv (communicationWarning s w).1 rest).2
    rw [ha1, ha2, ha3, ih1, ih2, ih3, communicationWarning_frame_count,
      communicationWarning_warnlog_count, communicationWarning_errorlog_count,
      communicationWarning_counter]
    simp only [List.length_cons]
    split_ifs <;> omega

/-- C3: over a port's lifetime the locally produced communication warnings
are capped: a fresh port fed any number `n ≥ 5` of warning-triggering
inbound frames (here: `signalUpdate`s whose subscribe id is unknown, the
table being empty) sends exactly five `communicationWarning` frames and
logs exactly five local warning lines plus exactly one suppression
error-log line, no matter how large `n` is. An inbound
`communicationWarning` frame, by contrast, is only logged: it leaves the
whole state (including the produced-warnings counter) unchanged and sends
nothing. -/
theorem warning_cap :
    (∀ (s : PortState) (ms : List Msg),
      s.openSignalSubscriptions = [] →
      s.producedCommunicationWarningsCount = 0 →
      (∀ m ∈ ms, ∃ id p t, m = Msg.signalUpdate id p t) →
      5 ≤ ms.length →
      countWarningFrames (runRecv s ms).2 = 5 ∧
      countWarnLogs (runRecv s ms).2 = 5 ∧
      countErrorLogs (runRecv s ms).2 = 1) ∧
    (∀ (s : PortState) (w : String),
      receivedCommunicationWarning s w = (s, [Effect.logWarn (receivedWarningText w)]) ∧
      countWarningFrames (receivedCommunicationWarning s w).2 = 0 ∧
      (receivedCommunicationWarning s w).1.producedCommunicationWarningsCount =
        s.producedCommunicationWarningsCount ∧
      ((receivedCommunicationWarning s w).2.filter Effect.isSendFrame).length = 0) := by
  constructor
  · intro s ms hts hcnt hms hlen
    obtain ⟨h1, h2, h3⟩ := warn_cap_aux ms s hts hms
    rw [hcnt] at h1 h2 h3
    refine ⟨?_, ?_, ?_⟩
    · rw [h1]; omega
    · rw [h2]; omega
    · rw [h3]
      split_ifs with hc
      · rfl
      · simp at hc
        omega
  · intro s w
    exact ⟨rfl, rfl, rfl, rfl⟩

/-- Scenario S5's six `signalUpdate` frames with unknown subscribe ids. -/
def c3Msgs : List Msg :=
  [.signalUpdate 10 [] [], .signalUpdate 11 [] [], .signalUpdate 12 [] [],
   .signalUpdate 13 [] [], .signalUpdate 14 [] [], .signalUpdate 15 [] []]

/-- Witness for `warning_cap`, scenario S5: six unknown-id `signalUpdate`s
on a fresh port yield exactly five outbound `communicationWarning` frames,
five warning logs and one suppression line; an inbound warning frame is
only logged. -/
theorem warning_cap_witness :
    (countWarningFrames (runRecv freshPort c3Msgs).2 = 5 ∧
     countWarnLogs (runRecv freshPort c3Msgs).2 = 5 ∧
     countErrorLogs (runRecv freshPort c3Msgs).2 = 1) ∧
    (receivedCommunicationWarning freshPort "w" =
       (freshPort, [Effect.logWarn (receivedWarningText "w")]) ∧
     countWarningFrames (receivedCommunicationWarning freshPort "w").2 = 0 ∧
     (receivedCommunicationWarning freshPort "w").1.producedCommunicationWarningsCount =
       freshPort.producedCommunicationWarningsCount ∧
     ((receivedCommunicationWarning freshPort "w").2.filter Effect.isSendFrame).length = 0) :=
  ⟨warning_cap.1 freshPort c3Msgs rfl rfl
     (by intro m hm; fin_cases hm <;> exact ⟨_, _, _, rfl⟩) (by simp [c3Msgs]),
   warning_cap.2 freshPort "w"⟩

lemma receivedMessage_counters (s : PortState) (m : Msg) :
    (receivedMessage s m).1.nextChannelId = s.nextChannelId ∧
    (receivedMessage s m).1.nextSubscribeId = s.nextSubscribeId ∧
    (receivedMessage s m).1.nextWritableSubscribeId = s.nextWritableSubscribeId := by
  have hcw1 := fun w => (communicationWarning_state s w).2.2.2.2.2.1
  have hcw2 := fun w => (communicationWarning_state s w).2.2.2.2.2.2.1
  have hcw3 := fun w => (communicationWarning_state s w).2.2.2.2.2.2.2
  refine ⟨?_, ?_, ?_⟩ <;>
    cases m <;>
      simp only [receivedMessage, receivedChannelSend, receivedChannelAck,
        receivedChannelClose, receivedChannelError, receivedRpcResult, receivedRpcError,
        receivedSignalUpdate, receivedSignalError, receivedWritableSignalUpdate,
        receivedWritableSignalError, receivedCommunicationWarning, receivedKeepAliveAck] <;>
      (repeat' split) <;>
      simp_all [updateOpenCommunicationsCount_fst]

lemma stepOp_spec (s : PortState) (op : PortOp) :
    (∀ k, s.counterVal k ≤ (stepOp s op).1.counterVal k) ∧
    (stepOp s op).2.length ≤ 1 ∧
    (∀ a ∈ (stepOp s op).2,
      a.id = s.counterVal a.src.counter ∧
      (stepOp s op).1.counterVal a.src.counter = s.counterVal a.src.counter + 1) := by
  cases op with
  | rpcOp name param st =>
    rcases hep : s.backendInterface.getRpcEndpoint name with _ | ep
    · refine ⟨?_, ?_, ?_⟩ <;> simp [stepOp, callRpc, hep]
    · rcases hp : ep.parameter param with _ | validated
      · refine ⟨?_, ?_, ?_⟩ <;> simp [stepOp, callRpc, hep, hp]
      · have hstep : stepOp s (.rpcOp name param st) =
            ((updateOpenCommunicationsCount { s with
                nextChannelId := s.nextChannelId + 1,
                ongoingRpcs :=
                  alSet s.ongoingRpcs s.nextChannelId ⟨ep, st.getD capturedStack⟩ }).1,
             [⟨.rpc, s.nextChannelId⟩]) := by
          simp [stepOp, callRpc, hep, hp]
        rw [hstep]
        refine ⟨?_, by simp, ?_⟩
        · intro k
          cases k <;> simp [updateOpenCommunicationsCount_fst, PortState.counterVal]
        · intro a ha
          simp at ha
          subst ha
          exact ⟨rfl, by simp [updateOpenCommunicationsCount_fst, PortState.counterVal,
            AllocSrc.counter]⟩
  | channelOp name param st =>
    rcases hep : s.backendInterface.getChannelEndpoint name with _ | ep
    · refine ⟨?_, ?_, ?_⟩ <;> simp [stepOp, createChannel, hep]
    · rcases hp : ep.creationParameter param with _ | validated
      · refine ⟨?_, ?_, ?_⟩ <;> simp [stepOp, createChannel, hep, hp]
      · have hstep : stepOp s (.channelOp name param st) =
            ((updateOpenCommunicationsCount { s with
                nextChannelId := s.nextChannelId + 1,
                openChannels :=
                  alSet s.openChannels s.nextChannelId ⟨ep, st.getD capturedStack⟩ }).1,
             [⟨.channel, s.nextChannelId⟩]) := by
          simp [stepOp, createChannel, hep, hp]
        rw [hstep]
        refine ⟨?_, by simp, ?_⟩
        · intro k
          cases k <;> simp [updateOpenCommunicationsCount_fst, PortState.counterVal]
        · intro a ha
          simp at ha
          subst ha
          exact ⟨rfl, by simp [updateOpenCommunicationsCount_fst, PortState.counterVal,
            AllocSrc.counter]⟩
  | signalAttachOp name param st =>
    rcases hep : s.backendInterface.getSignalEndpoint name with _ | ep
    · refine ⟨?_, ?_, ?_⟩ <;> simp [stepOp, createSignal, hep]
    · rcases hp : ep.creationParameter param with _ | validated
      · refine ⟨?_, ?_, ?_⟩ <;> simp [stepOp, createSignal, hep, hp]
      · have hstep : stepOp s (.signalAttachOp name param st) =
            ((updateOpenCommunicationsCount { s with
                nextSubscribeId := s.nextSubscribeId + 1,
                openSignalSubscriptions :=
                  alSet s.openSignalSubscriptions s.nextSubscribeId ⟨ep, none,
                    st.getD capturedStack⟩ }).1,
             [⟨.signal, s.nextSubscribeId⟩]) := by
          simp [stepOp, createSignal, hep, hp, signalSubscribeUpstream]
        rw [hstep]
        refine ⟨?_, by simp, ?_⟩
        · intro k
          cases k <;> simp [updateOpenCommunicationsCount_fst, PortState.counterVal]
        · intro a ha
          simp at ha
          subst ha
          exact ⟨rfl, by simp [updateOpenCommunicationsCount_fst, PortState.counterVal,
            AllocSrc.counter]⟩
  | wsignalAttachOp name param st =>
    rcases hep : s.backendInterface.getWritableSignalEndpoint name with _ | ep
    · refine ⟨?_, ?_, ?_⟩ <;> simp [stepOp, createWritableSignal, hep]
    · rcases hp : ep.creationParameter param with _ | validated
      · refine ⟨?_, ?_, ?_⟩ <;> simp [stepOp, createWritableSignal, hep, hp]
      · have hstep : stepOp s (.wsignalAttachOp name param st) =
            ((updateOpenCommunicationsCount { s with
                nextWritableSubscribeId := s.nextWritableSubscribeId + 1,
                openWritableSignalSubscriptions :=
                  alSet s.openWritableSignalSubscriptions s.nextWritableSubscribeId
                    ⟨ep, none, st.getD capturedStack⟩ }).1,
             [⟨.wsignal, s.nextWritableSubscribeId⟩]) := by
          simp [stepOp, createWritableSignal, hep, hp, writableSignalSubscribeUpstream]
        rw [hstep]
        refine ⟨?_, by simp, ?_⟩
        · intro k
          cases k <;> simp [updateOpenCommunicationsCount_fst, PortState.counterVal]
        · intro a ha
          simp at ha
          subst ha
          exact ⟨rfl, by simp [updateOpenCommunicationsCount_fst, PortState.counterVal,
            AllocSrc.counter]⟩
  | signalDetachOp subscribeId =>
    refine ⟨?_, ?_, ?_⟩ <;> simp [stepOp, signalUnsubscribeUpstream]
  | wsignalDetachOp subscribeId =>
    refine ⟨?_, ?_, ?_⟩ <;> simp [stepOp, writableSignalUnsubscribeUpstream]
  | recvOp m =>
    obtain ⟨h1, h2, h3⟩ := receivedMessage_counters s m
    refine ⟨?_, by simp [stepOp], by simp [stepOp]⟩
    intro k
    cases k <;> simp [stepOp, PortState.counterVal, h1, h2, h3]
  | transportErrorOp e =>
    refine ⟨?_, ?_, ?_⟩ <;> simp [stepOp, errored]

lemma runOps_spec (ops : List PortOp) : ∀ s : PortState,
    (∀ k, s.counterVal k ≤ (runOps s ops).1.counterVal k) ∧
    (∀ a ∈ (runOps s ops).2,
      s.counterVal a.src.counter ≤ a.id ∧
      a.id < (runOps s ops).1.counterVal a.src.counter) ∧
    List.Pairwise (fun a b => a.src.counter = b.src.counter → a.id < b.id)
      (runOps s ops).2 := by
  induction ops with
  | nil =>
    intro s
    exact ⟨fun k => le_refl _, by simp [runOps], by simp [runOps]⟩
  | cons op rest ih =>
    intro s
    obtain ⟨hmono, hlen, hallocs⟩ := stepOp_spec s op
    obtain ⟨ihmono, ihbounds, ihpair⟩ := ih (stepOp s op).1
    have hrun : runOps s (op :: rest) =
        ((runOps (stepOp s op).1 rest).1,
         (stepOp s op).2 ++ (runOps (stepOp s op).1 rest).2) := by
      simp [runOps]
    rw [hrun]
    refine ⟨fun k => le_trans (hmono k) (ihmono k), ?_, ?_⟩
    · intro a ha
      dsimp only
      rcases List.mem_append.mp ha with h | h
      · obtain ⟨hid, hafter⟩ := hallocs a h
        have hrest := ihmono a.src.counter
        constructor
        · omega
        · omega
      · obtain ⟨hlo, hhi⟩ := ihbounds a h
        exact ⟨le_trans (hmono _) hlo, hhi⟩
    · rw [List.pairwise_append]
      refine ⟨?_, ihpair, ?_⟩
      · rcases h2 : (stepOp s op).2 with _ | ⟨a, tl⟩
        · exact List.Pairwise.nil
        · rw [h2] at hlen
          simp at hlen
          subst hlen
          simp
      · intro a ha b hb hk
        obtain ⟨hid, hafter⟩ := hallocs a ha
        obtain ⟨hlo, _⟩ := ihbounds b hb
        rw [← hk] at hlo
        omega

/-- C7: over any sequence of port operations from any starting state, id
allocations are strictly monotone per counter — `callRpc` and
`createChannel` draw from the one shared `nextChannelId` counter while
read-only and writable signal subscriptions draw from their own counters
(see `AllocSrc.counter`) — so chronologically later allocations from the
same counter have strictly larger ids, no id is ever allocated twice from
one counter, and in particular no call id ever equals a channel id of the
same port. -/
theorem id_allocation_monotonic (s0 : PortState) (ops : List PortOp) :
    List.Pairwise (fun a b => a.src.counter = b.src.counter → a.id < b.id)
      (runOps s0 ops).2 ∧
    (∀ a ∈ (runOps s0 ops).2, ∀ b ∈ (runOps s0 ops).2, a ≠ b →
      a.src.counter = b.src.counter → a.id ≠ b.id) ∧
    (∀ a ∈ (runOps s0 ops).2, ∀ b ∈ (runOps s0 ops).2,
      a.src = AllocSrc.rpc → b.src = AllocSrc.channel → a.id ≠ b.id) := by
  obtain ⟨_, _, hpair⟩ := runOps_spec ops s0
  have hpair' : List.Pairwise (fun a b : Alloc => a.src.counter = b.src.counter → a.id ≠ b.id)
      (runOps s0 ops).2 :=
    hpair.imp (fun h hc => Nat.ne_of_lt (h hc))
  have hsymm : Symmetric (fun a b : Alloc => a.src.counter = b.src.counter → a.id ≠ b.id) := by
    intro x y h hc
    exact (h hc.symm).symm
  have hforall := hpair'.forall hsymm
  refine ⟨hpair, ?_, ?_⟩
  · intro a ha b hb hne hc
    exact hforall ha hb hne hc
  · intro a ha b hb hra hrb
    have hne : a ≠ b := by
      intro heq
      subst heq
      rw [hra] at hrb
      simp at hrb
    have hc : a.src.counter = b.src.counter := by
      simp [hra, hrb, AllocSrc.counter]
    exact hforall ha hb hne hc

/-- A concrete operation trace touching all three counters, with two RPCs
and a channel interleaved. -/
def c7Ops : List PortOp :=
  [.rpcOp "add" vAB none, .channelOp "chan" .vnull none,
   .signalAttachOp "counter" (.vstr "p") none, .wsignalAttachOp "wcounter" (.vstr "p") none,
   .rpcOp "add" vAB none]

/-- Witness for `id_allocation_monotonic` on the concrete trace `c7Ops`
from a fresh port: the allocations are `rpc 0`, `channel 1`, `signal 0`,
`wsignal 0`, `rpc 2`; the first call id (0) differs from the channel id
(1), and the two call ids differ. -/
theorem id_allocation_monotonic_witness :
    (runOps freshPort c7Ops).2 =
      [⟨.rpc, 0⟩, ⟨.channel, 1⟩, ⟨.signal, 0⟩, ⟨.wsignal, 0⟩, ⟨.rpc, 2⟩] ∧
    (⟨.rpc, 0⟩ : Alloc).id ≠ (⟨.channel, 1⟩ : Alloc).id ∧
    (⟨.rpc, 0⟩ : Alloc).id ≠ (⟨.rpc, 2⟩ : Alloc).id :=
  ⟨by decide,
   (id_allocation_monotonic freshPort c7Ops).2.2 ⟨.rpc, 0⟩ (by decide) ⟨.channel, 1⟩
     (by decide) rfl rfl,
   (id_allocation_monotonic freshPort c7Ops).2.1 ⟨.rpc, 0⟩ (by decide) ⟨.rpc, 2⟩
     (by decide) (by decide) rfl⟩
